import Mathlib

/-!
Shallow embedding of the GeneralEmbeddedCLibraries/boot bootloader core
(files `boot_com.c` V0.2.0 and `boot.c` V1.0.0) and proofs about it.

Machine integers are modelled as `Nat` with explicit `% 2 ^ w` where
overflow matters.  External platform capabilities (flash I/O, watchdog,
crypto primitives) are passed in as explicit oracle parameters.
-/

set_option maxRecDepth 10000

namespace Boot

/-! ## Status codes (`boot_types.h`, V1.0.0) -/

def eBOOT_OK : Nat := 0x00
def eBOOT_ERROR : Nat := 0x01
def eBOOT_ERROR_TIMEOUT : Nat := 0x02
def eBOOT_ERROR_CRC : Nat := 0x04
def eBOOT_WAR_EMPTY : Nat := 0x20
def eBOOT_WAR_FULL : Nat := 0x40

def eBOOT_MSG_OK : Nat := 0x00
def eBOOT_MSG_ERROR_VALIDATION : Nat := 0x01
def eBOOT_MSG_ERROR_INVALID_REQ : Nat := 0x02
def eBOOT_MSG_ERROR_FLASH_WRITE : Nat := 0x04
def eBOOT_MSG_ERROR_FLASH_ERASE : Nat := 0x08
def eBOOT_MSG_ERROR_FW_SIZE : Nat := 0x10
def eBOOT_MSG_ERROR_FW_VER : Nat := 0x20
def eBOOT_MSG_ERROR_HW_VER : Nat := 0x40
def eBOOT_MSG_ERROR_SIGNATURE : Nat := 0x80

/-! ## Command bytes (`boot_com.c`) -/

def eBOOT_MSG_CMD_CONNECT : Nat := 0x10
def eBOOT_MSG_CMD_CONNECT_RSP : Nat := 0x11
def eBOOT_MSG_CMD_PREPARE : Nat := 0x20
def eBOOT_MSG_CMD_PREPARE_RSP : Nat := 0x21
def eBOOT_MSG_CMD_FLASH : Nat := 0x30
def eBOOT_MSG_CMD_FLASH_RSP : Nat := 0x31
def eBOOT_MSG_CMD_EXIT : Nat := 0x40
def eBOOT_MSG_CMD_EXIT_RSP : Nat := 0x41
def eBOOT_MSG_CMD_INFO : Nat := 0xA0
def eBOOT_MSG_CMD_INFO_RSP : Nat := 0xA1

/-! ## Configuration constants (`boot_cfg.h` template) -/

def BOOT_CFG_RX_BUF_SIZE : Nat := 8 * 1024
def BOOT_CFG_APP_HEAD_ADDR : Nat := 0x08010000
def BOOT_COM_MSG_PREAMBLE_VAL : Nat := 0x07B0
def HEADER_SIZE : Nat := 256

/-! ## CRC-8 (`boot_com_calc_crc` / `boot_calc_crc`)
CRC-8-CCITT, polynomial 0x07, custom seed 0xB6, MSB first, no reflection,
no final XOR.  One inner C iteration shifts left and conditionally XORs
the polynomial; the `uint8_t` assignment truncates to 8 bits. -/

def crc8_shift (c : Nat) : Nat :=
  if c &&& 0x80 ≠ 0 then ((c <<< 1) ^^^ 0x07) % 256 else (c <<< 1) % 256

def crc8_byte (c d : Nat) : Nat :=
  (crc8_shift^[8]) ((c ^^^ d) % 256)

def boot_com_calc_crc (data : List Nat) : Nat :=
  data.foldl crc8_byte 0xB6

/-! ## Wire header (`boot_header_t`) -/

structure boot_header_t where
  preamble : Nat
  length : Nat
  source : Nat
  command : Nat
  status : Nat
  crc : Nat
  deriving Repr, DecidableEq

/-- Little-endian byte pair of a `uint16_t` value. -/
def bytes_u16 (x : Nat) : List Nat := [x % 256, (x / 256) % 256]

/-- `boot_com_calc_crc_packet`: XOR-composition of per-field CRC-8 values.
`none` payload mirrors passing `NULL`; for a present payload the C code
CRCs `p_header->field.length` bytes of it. -/
def boot_com_calc_crc_packet (h : boot_header_t) (payload : Option (List Nat)) : Nat :=
  let c :=
    boot_com_calc_crc (bytes_u16 h.length) ^^^
    boot_com_calc_crc [h.source % 256] ^^^
    boot_com_calc_crc [h.command % 256] ^^^
    boot_com_calc_crc [h.status % 256]
  match payload with
  | none => c
  | some p => c ^^^ boot_com_calc_crc (p.take h.length)

/-- Header assembled by `boot_com_send_flash` (before the CRC byte is
filled in).  The `length` field is the payload size. -/
def boot_com_send_flash_header (data : List Nat) : boot_header_t :=
  let h0 : boot_header_t :=
    { preamble := BOOT_COM_MSG_PREAMBLE_VAL, length := data.length,
      source := 0x2B, command := eBOOT_MSG_CMD_FLASH, status := 0, crc := 0 }
  { h0 with crc := boot_com_calc_crc_packet h0 (some data) }

/-! ## Receive parser (`boot_com.c`) -/

inductive ParserMode
  | idle
  | rcvHeader
  | rcvPayload
  deriving Repr, DecidableEq

/-- Parser state (`boot_parser_t`): `buf` holds the `buf.idx` stored bytes. -/
structure RxParser where
  buf : List Nat
  mode : ParserMode
  deriving Repr, DecidableEq

def RxParser.reset : RxParser := { buf := [], mode := .idle }

/-- Overlaying `boot_header_t` on the first 8 buffered bytes
(little-endian `uint16_t` fields). -/
def decode_header (buf : List Nat) : boot_header_t :=
  { preamble := buf.getD 0 0 % 256 + 256 * (buf.getD 1 0 % 256),
    length := buf.getD 2 0 % 256 + 256 * (buf.getD 3 0 % 256),
    source := buf.getD 4 0 % 256, command := buf.getD 5 0 % 256,
    status := buf.getD 6 0 % 256, crc := buf.getD 7 0 % 256 }

/-- `boot_parse_idle`. -/
def boot_parse_idle (p : RxParser) : RxParser × Nat :=
  ({ p with mode := .rcvHeader }, eBOOT_WAR_EMPTY)

/-- `boot_parse_rcv_header`. -/
def boot_parse_rcv_header (p : RxParser) : RxParser × Nat :=
  if p.buf.length = 8 then
    let h := decode_header p.buf
    if h.preamble = BOOT_COM_MSG_PREAMBLE_VAL then
      if h.length = 0 then
        if boot_com_calc_crc_packet h none = h.crc then (p, eBOOT_OK)
        else (p, eBOOT_ERROR_CRC)
      else ({ p with mode := .rcvPayload }, eBOOT_WAR_EMPTY)
    else (p, eBOOT_WAR_EMPTY)
  else (p, eBOOT_WAR_EMPTY)

/-- `boot_parse_rcv_payload`. -/
def boot_parse_rcv_payload (p : RxParser) : RxParser × Nat :=
  let h := decode_header p.buf
  if p.buf.length = h.length + 8 then
    if boot_com_calc_crc_packet h (some (p.buf.drop 8)) = h.crc then (p, eBOOT_OK)
    else (p, eBOOT_ERROR_CRC)
  else (p, eBOOT_WAR_EMPTY)

/-- `boot_parse`: parser FSM dispatch. -/
def boot_parse (p : RxParser) : RxParser × Nat :=
  match p.mode with
  | .idle => boot_parse_idle p
  | .rcvHeader => boot_parse_rcv_header p
  | .rcvPayload => boot_parse_rcv_payload p

/-- Result of one `boot_parse_hndl` invocation. -/
structure RxResult where
  pstate : RxParser
  status : Nat
  msg : Option (boot_header_t × List Nat)
  rxCleared : Bool
  rest : List Nat
  deriving Repr, DecidableEq

/-- `boot_parse_hndl` without the systick / idle-timeout check: drain the
receive FIFO byte by byte.  Each byte is stored at `buf[idx]`, then
`boot_buf_idx_increment` either advances the index (when
`idx < RX_BUF − 1`) or clears the interface FIFO, resets the parser and
reports FULL.  On a completed message (OK or CRC error) the parser is
reset and draining stops. -/
def boot_parse_hndl : RxParser → List Nat → RxResult
  | p, [] => ⟨p, eBOOT_WAR_EMPTY, none, false, []⟩
  | p, b :: bs =>
    if p.buf.length < BOOT_CFG_RX_BUF_SIZE - 1 then
      let pr := boot_parse { p with buf := p.buf ++ [b] }
      if pr.2 = eBOOT_OK then
        ⟨RxParser.reset, eBOOT_OK, some (decode_header pr.1.buf, pr.1.buf.drop 8), false, bs⟩
      else if pr.2 = eBOOT_ERROR_CRC then
        ⟨RxParser.reset, eBOOT_ERROR_CRC, none, false, bs⟩
      else
        boot_parse_hndl pr.1 bs
    else
      ⟨RxParser.reset, eBOOT_WAR_FULL, none, true, []⟩

/-! ## Parser lemmas -/

lemma decode_header_append (buf l' : List Nat) (h : 8 ≤ buf.length) :
    decode_header (buf ++ l') = decode_header buf := by
  have g : ∀ i, i < 8 → (buf ++ l').getD i 0 = buf.getD i 0 := by
    intro i hi
    exact List.getD_append _ _ _ _ (by omega)
  simp only [decode_header]
  rw [g 0 (by omega), g 1 (by omega), g 2 (by omega), g 3 (by omega),
    g 4 (by omega), g 5 (by omega), g 6 (by omega), g 7 (by omega)]

/-- On a completed message (OK or CRC error) `boot_parse_hndl` has reset
the parser to IDLE with an empty buffer. -/
lemma boot_parse_hndl_reset_of_terminal (p : RxParser) (bs : List Nat)
    (h : (boot_parse_hndl p bs).status = eBOOT_OK ∨
         (boot_parse_hndl p bs).status = eBOOT_ERROR_CRC) :
    (boot_parse_hndl p bs).pstate = RxParser.reset := by
  induction bs generalizing p with
  | nil =>
    simp [boot_parse_hndl, eBOOT_WAR_EMPTY, eBOOT_OK, eBOOT_ERROR_CRC] at h
  | cons b bs ih =>
    rw [boot_parse_hndl] at h ⊢
    by_cases hfull : p.buf.length < BOOT_CFG_RX_BUF_SIZE - 1
    · simp only [if_pos hfull] at h ⊢
      by_cases hok : (boot_parse { p with buf := p.buf ++ [b] }).2 = eBOOT_OK
      · simp [hok]
      · simp only [if_neg hok] at h ⊢
        by_cases hcrc : (boot_parse { p with buf := p.buf ++ [b] }).2 = eBOOT_ERROR_CRC
        · simp [hcrc]
        · simp only [if_neg hcrc] at h ⊢
          exact ih _ h
    · simp [if_neg hfull, eBOOT_WAR_FULL, eBOOT_OK, eBOOT_ERROR_CRC] at h

/-- Accumulating header bytes below the 8-byte mark produces no action. -/
lemma boot_parse_hndl_fill7 (p : RxParser) (zs rest : List Nat)
    (hmode : p.mode = .rcvHeader)
    (hsum : p.buf.length + zs.length ≤ 7) :
    boot_parse_hndl p (zs ++ rest) = boot_parse_hndl ⟨p.buf ++ zs, .rcvHeader⟩ rest := by
  induction zs generalizing p with
  | nil =>
    obtain ⟨buf, mode⟩ := p
    simp_all
  | cons z zs ih =>
    rw [List.cons_append, boot_parse_hndl]
    have hlt : p.buf.length < BOOT_CFG_RX_BUF_SIZE - 1 := by
      simp [BOOT_CFG_RX_BUF_SIZE]; simp at hsum; omega
    rw [if_pos hlt]
    have hne : (p.buf ++ [z]).length ≠ 8 := by simp at hsum ⊢; omega
    have hparse : boot_parse { p with buf := p.buf ++ [z] } =
        ({ p with buf := p.buf ++ [z] }, eBOOT_WAR_EMPTY) := by
      rw [boot_parse]
      simp only [hmode]
      rw [boot_parse_rcv_header, if_neg hne]
    rw [hparse]
    simp only [eBOOT_WAR_EMPTY, eBOOT_OK, eBOOT_ERROR_CRC]
    norm_num
    have := ih { p with buf := p.buf ++ [z] } (by simpa using hmode) (by simp at hsum ⊢; omega)
    simp only [hmode] at this ⊢
    rw [this]
    simp

/-- Result of the handle step at the instant the 8th header byte lands. -/
def after_header (buf rest : List Nat) : RxResult :=
  let h := decode_header buf
  if h.preamble = BOOT_COM_MSG_PREAMBLE_VAL then
    if h.length = 0 then
      if boot_com_calc_crc_packet h none = h.crc then
        ⟨RxParser.reset, eBOOT_OK, some (h, buf.drop 8), false, rest⟩
      else ⟨RxParser.reset, eBOOT_ERROR_CRC, none, false, rest⟩
    else boot_parse_hndl ⟨buf, .rcvPayload⟩ rest
  else boot_parse_hndl ⟨buf, .rcvHeader⟩ rest

/-- Feeding a full 8-byte header from an accumulating parser lands in
`after_header`. -/
lemma boot_parse_hndl_header_run (p : RxParser) (zs rest : List Nat)
    (hmode : p.mode = .rcvHeader)
    (hlt : p.buf.length < 8)
    (hsum : p.buf.length + zs.length = 8) :
    boot_parse_hndl p (zs ++ rest) = after_header (p.buf ++ zs) rest := by
  induction zs generalizing p with
  | nil => simp at hsum; omega
  | cons z zs ih =>
    by_cases hlast : zs = []
    · subst hlast
      have hlen : (p.buf ++ [z]).length = 8 := by simp at hsum ⊢; omega
      rw [List.cons_append, List.nil_append, boot_parse_hndl]
      have hcap : p.buf.length < BOOT_CFG_RX_BUF_SIZE - 1 := by
        simp [BOOT_CFG_RX_BUF_SIZE]; omega
      rw [if_pos hcap]
      have hparse : boot_parse { p with buf := p.buf ++ [z] } =
          boot_parse_rcv_header { p with buf := p.buf ++ [z] } := by
        rw [boot_parse]; simp only [hmode]
      rw [hparse, boot_parse_rcv_header]
      simp only [hlen, if_pos rfl]
      rw [after_header]
      by_cases hpre : (decode_header (p.buf ++ [z])).preamble = BOOT_COM_MSG_PREAMBLE_VAL
      · simp only [if_pos hpre]
        by_cases hL : (decode_header (p.buf ++ [z])).length = 0
        · simp only [if_pos hL]
          by_cases hcrc : boot_com_calc_crc_packet (decode_header (p.buf ++ [z])) none =
              (decode_header (p.buf ++ [z])).crc
          · simp [if_pos hcrc, eBOOT_OK, eBOOT_ERROR_CRC]
          · simp [if_neg hcrc, eBOOT_OK, eBOOT_ERROR_CRC]
        · simp only [if_neg hL]
          simp [eBOOT_WAR_EMPTY, eBOOT_OK, eBOOT_ERROR_CRC]
      · simp only [if_neg hpre]
        simp [eBOOT_WAR_EMPTY, eBOOT_OK, eBOOT_ERROR_CRC, hmode]
    · rw [List.cons_append, boot_parse_hndl]
      have hzlen : 0 < zs.length := List.length_pos.mpr hlast
      have hcap : p.buf.length < BOOT_CFG_RX_BUF_SIZE - 1 := by
        simp [BOOT_CFG_RX_BUF_SIZE]; omega
      rw [if_pos hcap]
      have hne : (p.buf ++ [z]).length ≠ 8 := by simp at hsum ⊢; omega
      have hparse : boot_parse { p with buf := p.buf ++ [z] } =
          ({ p with buf := p.buf ++ [z] }, eBOOT_WAR_EMPTY) := by
        rw [boot_parse]
        simp only [hmode]
        rw [boot_parse_rcv_header, if_neg hne]
      rw [hparse]
      simp only [eBOOT_WAR_EMPTY, eBOOT_OK, eBOOT_ERROR_CRC]
      norm_num
      have := ih { p with buf := p.buf ++ [z] } (by simpa using hmode)
        (by simp at hsum ⊢; omega) (by simp at hsum ⊢; omega)
      simp only [hmode] at this ⊢
      rw [this]
      simp

/-- A payload whose declared frame fits below the buffer cap is fully
accumulated, the CRC is validated and the parser resets. -/
lemma boot_parse_hndl_payload_complete (ys : List Nat) (p : RxParser) (rest : List Nat)
    (hmode : p.mode = .rcvPayload)
    (hlen8 : 8 ≤ p.buf.length)
    (hlt : p.buf.length < (decode_header p.buf).length + 8)
    (hcap : (decode_header p.buf).length + 8 ≤ BOOT_CFG_RX_BUF_SIZE - 1)
    (hys : p.buf.length + ys.length = (decode_header p.buf).length + 8) :
    boot_parse_hndl p (ys ++ rest) =
      (if boot_com_calc_crc_packet (decode_header p.buf) (some ((p.buf ++ ys).drop 8)) =
          (decode_header p.buf).crc then
        ⟨RxParser.reset, eBOOT_OK, some (decode_header p.buf, (p.buf ++ ys).drop 8), false, rest⟩
      else ⟨RxParser.reset, eBOOT_ERROR_CRC, none, false, rest⟩) := by
  induction ys generalizing p with
  | nil => simp at hys; omega
  | cons y ys ih =>
    rw [List.cons_append, boot_parse_hndl]
    have hcap1 : p.buf.length < BOOT_CFG_RX_BUF_SIZE - 1 := by omega
    rw [if_pos hcap1]
    have hdr_eq : decode_header (p.buf ++ [y]) = decode_header p.buf :=
      decode_header_append _ _ hlen8
    by_cases hterm : p.buf.length + 1 = (decode_header p.buf).length + 8
    · have hys0 : ys = [] := by
        have := hys
        simp at this
        have : ys.length = 0 := by omega
        exact List.eq_nil_of_length_eq_zero this
      subst hys0
      have hparse : boot_parse { p with buf := p.buf ++ [y] } =
          boot_parse_rcv_payload { p with buf := p.buf ++ [y] } := by
        rw [boot_parse]; simp only [hmode]
      rw [hparse, boot_parse_rcv_payload]
      simp only [hdr_eq]
      have hlen' : (p.buf ++ [y]).length = (decode_header p.buf).length + 8 := by
        simp; omega
      rw [if_pos hlen']
      by_cases hcrc : boot_com_calc_crc_packet (decode_header p.buf)
          (some ((p.buf ++ [y]).drop 8)) = (decode_header p.buf).crc
      · simp [hcrc, eBOOT_OK, hdr_eq]
      · simp [hcrc, eBOOT_OK, eBOOT_ERROR_CRC]
    · have hne : (p.buf ++ [y]).length ≠ (decode_header (p.buf ++ [y])).length + 8 := by
        rw [hdr_eq]; simp; omega
      have hparse : boot_parse { p with buf := p.buf ++ [y] } =
          ({ p with buf := p.buf ++ [y] }, eBOOT_WAR_EMPTY) := by
        rw [boot_parse]
        simp only [hmode]
        rw [boot_parse_rcv_payload, if_neg hne]
      rw [hparse]
      simp only [eBOOT_WAR_EMPTY, eBOOT_OK, eBOOT_ERROR_CRC]
      norm_num
      have := ih { p with buf := p.buf ++ [y] } (by simpa using hmode)
        (by simp; omega) (by rw [hdr_eq]; simp; omega) (by rw [hdr_eq]; omega)
        (by rw [hdr_eq]; simp at hys ⊢; omega)
      simp only [hmode, hdr_eq] at this ⊢
      rw [this]
      simp [eBOOT_OK, eBOOT_ERROR_CRC]

/-- A declared frame at least as large as the reception buffer drives the
parser into the buffer-full path: interface FIFO cleared, parser reset,
FULL reported. -/
lemma boot_parse_hndl_payload_full (bs : List Nat) (p : RxParser)
    (hmode : p.mode = .rcvPayload)
    (hlen8 : 8 ≤ p.buf.length)
    (hcap : p.buf.length ≤ BOOT_CFG_RX_BUF_SIZE - 1)
    (hL : BOOT_CFG_RX_BUF_SIZE ≤ (decode_header p.buf).length + 8)
    (hbytes : BOOT_CFG_RX_BUF_SIZE ≤ p.buf.length + bs.length) :
    boot_parse_hndl p bs = ⟨RxParser.reset, eBOOT_WAR_FULL, none, true, []⟩ := by
  induction bs generalizing p with
  | nil => simp at hbytes; omega
  | cons b bs ih =>
    rw [boot_parse_hndl]
    by_cases hfull : p.buf.length < BOOT_CFG_RX_BUF_SIZE - 1
    · rw [if_pos hfull]
      have hdr_eq : decode_header (p.buf ++ [b]) = decode_header p.buf :=
        decode_header_append _ _ hlen8
      have hne : (p.buf ++ [b]).length ≠ (decode_header (p.buf ++ [b])).length + 8 := by
        rw [hdr_eq]; simp; omega
      have hparse : boot_parse { p with buf := p.buf ++ [b] } =
          ({ p with buf := p.buf ++ [b] }, eBOOT_WAR_EMPTY) := by
        rw [boot_parse]
        simp only [hmode]
        rw [boot_parse_rcv_payload, if_neg hne]
      rw [hparse]
      simp only [eBOOT_WAR_EMPTY, eBOOT_OK, eBOOT_ERROR_CRC]
      norm_num
      have := ih { p with buf := p.buf ++ [b] } (by simpa using hmode)
        (by simp; omega) (by simp; omega) (by rw [hdr_eq]; omega)
        (by simp at hbytes ⊢; omega)
      simp only [hmode] at this ⊢
      exact this
    · rw [if_neg hfull]

/-- The first received byte moves the parser from IDLE to header reception. -/
lemma boot_parse_hndl_first (b : Nat) (rest : List Nat) :
    boot_parse_hndl RxParser.reset (b :: rest) =
      boot_parse_hndl ⟨[b], .rcvHeader⟩ rest := by
  rw [boot_parse_hndl]
  simp [RxParser.reset, boot_parse, boot_parse_idle, eBOOT_WAR_EMPTY, eBOOT_OK,
    eBOOT_ERROR_CRC, BOOT_CFG_RX_BUF_SIZE]

/-- Feeding exactly 8 bytes from the reset parser lands in `after_header`. -/
lemma boot_parse_hndl_frame (b : Nat) (zs rest : List Nat) (hz : zs.length = 7) :
    boot_parse_hndl RxParser.reset ((b :: zs) ++ rest) = after_header (b :: zs) rest := by
  rw [List.cons_append, boot_parse_hndl_first]
  have := boot_parse_hndl_header_run ⟨[b], .rcvHeader⟩ zs rest rfl (by simp) (by simp [hz])
  simpa using this

/-! ## Claim theorems: framing layer -/

/-- **C7.** Frame-parser step semantics: with exactly 8 bytes accumulated,
a wrong preamble causes no action (the parser waits for the idle-timeout
reset); a zero-length frame has its CRC validated, yielding OK or
CRC-error; a nonzero payload length moves the parser to payload
reception; with exactly `8 + payload_length` bytes accumulated the CRC is
validated, yielding OK or CRC-error; and on either OK or CRC-error the
handle step resets the parser to IDLE, discarding its buffer. -/
theorem rcv_parser_step_behaviour :
    (∀ p : RxParser, p.mode = .rcvHeader → p.buf.length = 8 →
      (decode_header p.buf).preamble ≠ BOOT_COM_MSG_PREAMBLE_VAL →
      boot_parse p = (p, eBOOT_WAR_EMPTY)) ∧
    (∀ p : RxParser, p.mode = .rcvHeader → p.buf.length = 8 →
      (decode_header p.buf).preamble = BOOT_COM_MSG_PREAMBLE_VAL →
      (decode_header p.buf).length = 0 →
      boot_parse p =
        (p, if boot_com_calc_crc_packet (decode_header p.buf) none = (decode_header p.buf).crc
            then eBOOT_OK else eBOOT_ERROR_CRC)) ∧
    (∀ p : RxParser, p.mode = .rcvHeader → p.buf.length = 8 →
      (decode_header p.buf).preamble = BOOT_COM_MSG_PREAMBLE_VAL →
      (decode_header p.buf).length ≠ 0 →
      boot_parse p = ({ p with mode := .rcvPayload }, eBOOT_WAR_EMPTY)) ∧
    (∀ p : RxParser, p.mode = .rcvPayload →
      p.buf.length = (decode_header p.buf).length + 8 →
      boot_parse p =
        (p, if boot_com_calc_crc_packet (decode_header p.buf) (some (p.buf.drop 8)) =
              (decode_header p.buf).crc
            then eBOOT_OK else eBOOT_ERROR_CRC)) ∧
    (∀ (p : RxParser) (bs : List Nat),
      (boot_parse_hndl p bs).status = eBOOT_OK ∨
      (boot_parse_hndl p bs).status = eBOOT_ERROR_CRC →
      (boot_parse_hndl p bs).pstate = RxParser.reset) := by
  refine ⟨?_, ?_, ?_, ?_, boot_parse_hndl_reset_of_terminal⟩
  · intro p h1 h2 h3
    simp only [boot_parse, h1]
    rw [boot_parse_rcv_header, if_pos h2, if_neg h3]
  · intro p h1 h2 h3 h4
    simp only [boot_parse, h1]
    rw [boot_parse_rcv_header, if_pos h2, if_pos h3, if_pos h4]
    split <;> rfl
  · intro p h1 h2 h3 h4
    simp only [boot_parse, h1]
    rw [boot_parse_rcv_header, if_pos h2, if_pos h3, if_neg h4]
  · intro p h1 h2
    simp only [boot_parse, h1]
    rw [boot_parse_rcv_payload, if_pos h2]
    split <;> rfl

/-- Witness for C7 at concrete parser states. -/
theorem rcv_parser_step_behaviour_witness :
    boot_parse ⟨[0x00, 0x07, 0, 0, 0, 0, 0, 0], .rcvHeader⟩ =
      (⟨[0x00, 0x07, 0, 0, 0, 0, 0, 0], .rcvHeader⟩, eBOOT_WAR_EMPTY) ∧
    boot_parse ⟨[0xB0, 0x07, 0, 0, 0x2B, 0x10, 0, 155], .rcvHeader⟩ =
      (⟨[0xB0, 0x07, 0, 0, 0x2B, 0x10, 0, 155], .rcvHeader⟩, eBOOT_OK) ∧
    boot_parse ⟨[0xB0, 0x07, 1, 0, 0x2B, 0x30, 0, 61], .rcvHeader⟩ =
      (⟨[0xB0, 0x07, 1, 0, 0x2B, 0x30, 0, 61], .rcvPayload⟩, eBOOT_WAR_EMPTY) ∧
    boot_parse ⟨[0xB0, 0x07, 1, 0, 0x2B, 0x30, 0, 61, 0xAB], .rcvPayload⟩ =
      (⟨[0xB0, 0x07, 1, 0, 0x2B, 0x30, 0, 61, 0xAB], .rcvPayload⟩, eBOOT_OK) ∧
    (boot_parse_hndl RxParser.reset [0xB0, 0x07, 0, 0, 0x2B, 0x10, 0, 155]).pstate =
      RxParser.reset := by
  obtain ⟨h1, h2, h3, h4, h5⟩ := rcv_parser_step_behaviour
  refine ⟨h1 _ rfl (by decide) (by decide), ?_, h3 _ rfl (by decide) (by decide) (by decide),
    ?_, h5 _ _ (Or.inl (by decide))⟩
  · have := h2 ⟨[0xB0, 0x07, 0, 0, 0x2B, 0x10, 0, 155], .rcvHeader⟩ rfl (by decide)
      (by decide) (by decide)
    rw [this]
    decide
  · have := h4 ⟨[0xB0, 0x07, 1, 0, 0x2B, 0x30, 0, 61, 0xAB], .rcvPayload⟩ rfl (by decide)
    rw [this]
    decide

/-- **C6 (amended).** Complete frames whose payload length is at most
`RX_BUF − 9` are accumulated and completed with OK or CRC-error, the
parser resetting and leaving trailing bytes in the FIFO; frames with
payload length at least `RX_BUF − 8` take the buffer-full path instead:
the interface FIFO is cleared, the parser buffer and mode are reset, and
FULL is reported.  (The boundary `RX_BUF − 8` itself is rejected, not
accepted.) -/
theorem frame_payload_length_boundary (hdr payload rest : List Nat)
    (hh : hdr.length = 8)
    (hpre : (decode_header hdr).preamble = BOOT_COM_MSG_PREAMBLE_VAL)
    (hplen : (decode_header hdr).length = payload.length) :
    (payload.length ≤ BOOT_CFG_RX_BUF_SIZE - 9 →
      ((boot_parse_hndl RxParser.reset (hdr ++ payload ++ rest)).status = eBOOT_OK ∨
       (boot_parse_hndl RxParser.reset (hdr ++ payload ++ rest)).status = eBOOT_ERROR_CRC) ∧
      (boot_parse_hndl RxParser.reset (hdr ++ payload ++ rest)).pstate = RxParser.reset ∧
      (boot_parse_hndl RxParser.reset (hdr ++ payload ++ rest)).rest = rest) ∧
    (BOOT_CFG_RX_BUF_SIZE - 8 ≤ payload.length →
      boot_parse_hndl RxParser.reset (hdr ++ payload ++ rest) =
        ⟨RxParser.reset, eBOOT_WAR_FULL, none, true, []⟩) := by
  match hdr, hh with
  | b :: zs, hh =>
  have hz : zs.length = 7 := by simpa using hh
  rw [List.append_assoc, boot_parse_hndl_frame b zs (payload ++ rest) hz]
  rw [after_header]
  simp only [hpre, if_pos]
  constructor
  · intro hle
    by_cases hL0 : (decode_header (b :: zs)).length = 0
    · have hp0 : payload = [] := by
        have := hplen
        rw [hL0] at this
        exact (List.eq_nil_of_length_eq_zero this.symm)
      subst hp0
      simp only [if_pos hL0]
      split <;> simp [eBOOT_OK, eBOOT_ERROR_CRC]
    · simp only [if_neg hL0]
      have hc := boot_parse_hndl_payload_complete payload ⟨b :: zs, .rcvPayload⟩ rest rfl
        (by simp [hz]) (by simp [hz]; omega) (by simp [BOOT_CFG_RX_BUF_SIZE] at hle ⊢; omega)
        (by simp [hz]; omega)
      rw [hc]
      split <;> simp [eBOOT_OK, eBOOT_ERROR_CRC]
  · intro hge
    have hL0 : (decode_header (b :: zs)).length ≠ 0 := by
      rw [hplen]
      simp [BOOT_CFG_RX_BUF_SIZE] at hge
      omega
    simp only [if_neg hL0]
    exact boot_parse_hndl_payload_full (payload ++ rest) ⟨b :: zs, .rcvPayload⟩ rfl
      (by simp [hz]) (by simp [hz, BOOT_CFG_RX_BUF_SIZE])
      (by rw [hplen]; simp [BOOT_CFG_RX_BUF_SIZE] at hge ⊢; omega)
      (by rw [List.length_append]; simp [hz, BOOT_CFG_RX_BUF_SIZE] at hge ⊢; omega)

/-- Witness for C6 at a concrete 1-byte-payload frame. -/
theorem frame_payload_length_boundary_witness :
    ((boot_parse_hndl RxParser.reset
        ([0xB0, 0x07, 1, 0, 0x2B, 0x30, 0, 61] ++ [0xAB] ++ [])).status = eBOOT_OK ∨
     (boot_parse_hndl RxParser.reset
        ([0xB0, 0x07, 1, 0, 0x2B, 0x30, 0, 61] ++ [0xAB] ++ [])).status = eBOOT_ERROR_CRC) ∧
    (boot_parse_hndl RxParser.reset
        ([0xB0, 0x07, 1, 0, 0x2B, 0x30, 0, 61] ++ [0xAB] ++ [])).pstate = RxParser.reset := by
  have h := (frame_payload_length_boundary [0xB0, 0x07, 1, 0, 0x2B, 0x30, 0, 61] [0xAB] []
    (by decide) (by decide) (by decide)).1 (by decide)
  exact ⟨h.1, h.2.1⟩

/-- **C6 counterexample.** A syntactically well-formed frame whose payload
length is exactly `RX_BUF − 8 = 8184` is *not* completed with OK or
CRC-error as the claim states: the parser takes the buffer-full path and
reports FULL. -/
theorem rx_buf_boundary_frame_full :
    (decode_header [0xB0, 0x07, 0xF8, 0x1F, 0x2B, 0x30, 0x00, 0x00]).length =
      BOOT_CFG_RX_BUF_SIZE - 8 ∧
    boot_parse_hndl RxParser.reset
        ([0xB0, 0x07, 0xF8, 0x1F, 0x2B, 0x30, 0x00, 0x00] ++
          List.replicate (BOOT_CFG_RX_BUF_SIZE - 8) 0) =
      ⟨RxParser.reset, eBOOT_WAR_FULL, none, true, []⟩ ∧
    eBOOT_WAR_FULL ≠ eBOOT_OK ∧ eBOOT_WAR_FULL ≠ eBOOT_ERROR_CRC := by
  refine ⟨by decide, ?_, by decide, by decide⟩
  have hfrm : boot_parse_hndl RxParser.reset
      (([0xB0, 0x07, 0xF8, 0x1F, 0x2B, 0x30, 0x00, 0x00] : List Nat) ++
        List.replicate (BOOT_CFG_RX_BUF_SIZE - 8) 0) =
      after_header [0xB0, 0x07, 0xF8, 0x1F, 0x2B, 0x30, 0x00, 0x00]
        (List.replicate (BOOT_CFG_RX_BUF_SIZE - 8) 0) := by
    exact boot_parse_hndl_frame 0xB0 [0x07, 0xF8, 0x1F, 0x2B, 0x30, 0x00, 0x00] _ (by decide)
  rw [hfrm]
  rw [after_header]
  rw [if_pos (show (decode_header [0xB0, 0x07, 0xF8, 0x1F, 0x2B, 0x30, 0x00, 0x00]).preamble =
    BOOT_COM_MSG_PREAMBLE_VAL by decide)]
  rw [if_neg (show ¬ (decode_header [0xB0, 0x07, 0xF8, 0x1F, 0x2B, 0x30, 0x00, 0x00]).length =
    0 by decide)]
  exact boot_parse_hndl_payload_full (List.replicate (BOOT_CFG_RX_BUF_SIZE - 8) 0)
    ⟨[0xB0, 0x07, 0xF8, 0x1F, 0x2B, 0x30, 0x00, 0x00], .rcvPayload⟩ rfl
    (by decide) (by decide) (by decide)
    (by rw [List.length_replicate]; decide)

/-- **C8.** The on-wire message CRC is the XOR of independent CRC-8 values
of the length bytes, source byte, command byte, status byte and payload
bytes (shown on the header assembled by `boot_com_send_flash`), and this
differs from a single CRC-8 pass over the concatenated bytes. -/
theorem msg_crc_xor_composition :
    (∀ data : List Nat,
      (boot_com_send_flash_header data).crc =
        boot_com_calc_crc (bytes_u16 data.length) ^^^
        boot_com_calc_crc [0x2B] ^^^
        boot_com_calc_crc [eBOOT_MSG_CMD_FLASH] ^^^
        boot_com_calc_crc [0x00] ^^^
        boot_com_calc_crc data) ∧
    boot_com_calc_crc_packet
        { preamble := 0x07B0, length := 1, source := 0x2B, command := 0x30,
          status := 0, crc := 0 } (some [0x42]) ≠
      boot_com_calc_crc (bytes_u16 1 ++ [0x2B] ++ [0x30] ++ [0x00] ++ [0x42]) := by
  constructor
  · intro data
    show boot_com_calc_crc_packet _ (some data) = _
    rw [boot_com_calc_crc_packet]
    simp only [List.take_length, eBOOT_MSG_CMD_FLASH]
  · decide

/-! ## Image header and integrity primitives (`boot.c` V1.0.0) -/

/-- `boot_calc_crc` in `boot.c` is the same CRC-8 as in `boot_com.c`. -/
def boot_calc_crc (data : List Nat) : Nat := boot_com_calc_crc data

/-- Little-endian bytes of a `uint32_t` value. -/
def bytes_u32 (x : Nat) : List Nat :=
  [x % 256, x / 256 % 256, x / 65536 % 256, x / 16777216 % 256]

/-- Pad (or truncate) a byte list to exactly `n` bytes. -/
def pad_to (n : Nat) (l : List Nat) : List Nat :=
  (l.take n).map (· % 256) ++ List.replicate (n - l.length) 0

/-- Modelled from the spec: `ver_image_header_t`, the 256-byte image
header of the external `revision` module, which is not among the sources;
layout per the spec data model (ctrl block: crc byte 0, version,
image_type, signature_type; data block: image_addr, image_size,
image_crc, sw_ver, hw_ver, 64-byte signature, 32-byte hash, reserved
padding to 256 bytes; signature_type NONE = 0, ECDSA = 1,
image_type APP = 0). -/
structure ver_image_header_t where
  crc : Nat := 0
  ver : Nat := 0
  image_type : Nat := 0
  sig_type : Nat := 0
  ctrl_res : List Nat := List.replicate 4 0
  image_addr : Nat := 0
  image_size : Nat := 0
  image_crc : Nat := 0
  sw_ver : Nat := 0
  hw_ver : Nat := 0
  signature : List Nat := List.replicate 64 0
  hash : List Nat := List.replicate 32 0
  data_res : List Nat := List.replicate 132 0
  deriving Repr, DecidableEq

def eVER_SIG_TYPE_NONE : Nat := 0
def eVER_SIG_TYPE_ECSDA : Nat := 1
def eVER_IMAGE_TYPE_APP : Nat := 0

/-- On-flash byte layout of the image header (256 bytes). -/
def ver_image_header_serialize (h : ver_image_header_t) : List Nat :=
  [h.crc % 256, h.ver % 256, h.image_type % 256, h.sig_type % 256] ++
  pad_to 4 h.ctrl_res ++
  bytes_u32 h.image_addr ++ bytes_u32 h.image_size ++ bytes_u32 h.image_crc ++
  bytes_u32 h.sw_ver ++ bytes_u32 h.hw_ver ++
  pad_to 64 h.signature ++ pad_to 32 h.hash ++ pad_to 132 h.data_res

/-- `boot_app_head_calc_crc`: CRC-8 over the header bytes starting at the
version field (byte 1), i.e. every byte except the CRC byte itself. -/
def boot_app_head_calc_crc (h : ver_image_header_t) : Nat :=
  boot_calc_crc ((ver_image_header_serialize h).drop 1)

/-- `boot_app_header_check`. -/
def boot_app_header_check (h : ver_image_header_t) : Nat :=
  if boot_app_head_calc_crc h ≠ h.crc then eBOOT_ERROR_CRC else eBOOT_OK

/-- `boot_app_head_read`: flash read of the resident header followed by
the CRC check; the read outcome and the bytes obtained are oracles. -/
def boot_app_head_read (readOk : Bool) (hdr : ver_image_header_t) : Nat :=
  if readOk then boot_app_header_check hdr else eBOOT_ERROR

/-- CRC-32: polynomial 0x04C11DB7, seed 0x10101010, MSB first, no
reflection, no final XOR (inner loop of `boot_fw_image_check_crc`). -/
def crc32_shift (c : Nat) : Nat :=
  if c &&& 0x80000000 ≠ 0 then ((c <<< 1) ^^^ 0x04C11DB7) % 2 ^ 32
  else (c <<< 1) % 2 ^ 32

def crc32_byte (c d : Nat) : Nat :=
  (crc32_shift^[32]) ((c ^^^ d) % 2 ^ 32)

def boot_fw_image_calc_crc32 (data : List Nat) : Nat :=
  data.foldl crc32_byte 0x10101010

/-- The written payload as read back from flash: `image_size` bytes
starting at `BOOT_CFG_APP_HEAD_ADDR + HEADER_SIZE` (the fixed resident
location used by `boot_fw_image_check_crc` / `boot_fw_image_check_sig`). -/
def fw_payload_bytes (flash : Nat → Nat) (size : Nat) : List Nat :=
  (List.range size).map (fun i => flash (BOOT_CFG_APP_HEAD_ADDR + HEADER_SIZE + i) % 256)

/-- `boot_fw_image_check_crc`. -/
def boot_fw_image_check_crc (flash : Nat → Nat) (h : ver_image_header_t) : Nat :=
  if boot_fw_image_calc_crc32 (fw_payload_bytes flash h.image_size) = h.image_crc then
    eBOOT_OK
  else eBOOT_ERROR

/-- External cryptographic capabilities consumed by the signature check. -/
structure SigEnv where
  sha256 : List Nat → List Nat
  validPub : List Nat → Bool
  verify : List Nat → List Nat → List Nat → Bool
  pubKey : List Nat

/-- `boot_fw_image_check_sig`: SHA-256 over the written payload, then
`uECC_valid_public_key` and `uECC_verify` against the header's
signature field. -/
def boot_fw_image_check_sig (env : SigEnv) (flash : Nat → Nat)
    (h : ver_image_header_t) : Nat :=
  let hash := env.sha256 (fw_payload_bytes flash h.image_size)
  if env.validPub env.pubKey = false then eBOOT_ERROR
  else if env.verify env.pubKey hash h.signature = false then eBOOT_ERROR
  else eBOOT_OK

structure ValidateOut where
  status : Nat
  erased : Bool
  deriving Repr, DecidableEq

/-- `boot_fw_image_validate`: re-read and CRC-check the resident header,
then dispatch on the declared signature type.  An unknown signature type
only raises the (configurable, here disabled) debug assertion and leaves
the running status untouched.  A failed payload check erases the
resident header. -/
def boot_fw_image_validate (env : SigEnv) (flash : Nat → Nat) (readOk : Bool)
    (hdr : ver_image_header_t) : ValidateOut :=
  let s := boot_app_head_read readOk hdr
  if s = eBOOT_OK then
    let s2 :=
      if hdr.sig_type = eVER_SIG_TYPE_ECSDA then boot_fw_image_check_sig env flash hdr
      else if hdr.sig_type = eVER_SIG_TYPE_NONE then boot_fw_image_check_crc flash hdr
      else s
    if s2 = eBOOT_OK then { status := eBOOT_OK, erased := false }
    else { status := eBOOT_ERROR, erased := true }
  else { status := s, erased := false }

/-! ## Upgrade FSM (`boot.c` V1.0.0) -/

inductive BootState
  | idle
  | prepare
  | flash
  | exit
  deriving Repr, DecidableEq

/-- `boot_flashing_t`. -/
structure boot_flashing_t where
  working_addr : Nat
  flashed_bytes : Nat
  fw_size : Nat
  deriving Repr, DecidableEq

def eBOOT_REASON_NONE : Nat := 0
def eBOOT_REASON_COM : Nat := 1

/-- Observable effects of one message-handler callback. -/
structure CbOut where
  next : BootState
  rsps : List (Nat × Nat)
  fl : boot_flashing_t
  erased : Bool := false
  jumped : Bool := false
  reasonSet : Option Nat := none
  cntSet : Option Nat := none
  deriving Repr, DecidableEq

/-- `boot_com_connect_msg_rcv_cb`. -/
def boot_com_connect_msg_rcv_cb (st : BootState) (fl : boot_flashing_t) : CbOut :=
  if st = .idle then
    { next := .prepare, rsps := [(eBOOT_MSG_CMD_CONNECT_RSP, eBOOT_MSG_OK)],
      reasonSet := some eBOOT_REASON_COM, fl := fl }
  else
    { next := .idle, rsps := [(eBOOT_MSG_CMD_CONNECT_RSP, eBOOT_MSG_ERROR_INVALID_REQ)],
      fl := fl }

def FLASH_PAGE_SIZE : Nat := 2048

structure PrepFlashOut where
  status : Nat
  pages : List Nat
  kicks : Nat
  deriving Repr, DecidableEq

/-- Erase loop of `boot_prepare_flash`: page-by-page from `addr_work`
while below `addr_end`, kicking the watchdog after each page. -/
def boot_prepare_flash_loop (eraseOk : Nat → Bool) (addr_end addr_work : Nat) :
    PrepFlashOut :=
  if h : addr_work < addr_end then
    if eraseOk addr_work then
      let r := boot_prepare_flash_loop eraseOk addr_end (addr_work + FLASH_PAGE_SIZE)
      { r with pages := addr_work :: r.pages, kicks := r.kicks + 1 }
    else { status := eBOOT_MSG_ERROR_FLASH_ERASE, pages := [], kicks := 0 }
  else { status := eBOOT_MSG_OK, pages := [], kicks := 0 }
  termination_by addr_end - addr_work
  decreasing_by simp [FLASH_PAGE_SIZE]; omega

/-- `boot_prepare_flash`: note the `− 1` in the end address computed by
the source (`image_addr + ((image_size + sizeof(ver_image_header_t)) − 1)`). -/
def boot_prepare_flash (image_addr image_size : Nat) (eraseOk : Nat → Bool) :
    PrepFlashOut :=
  boot_prepare_flash_loop eraseOk (image_addr + (image_size + HEADER_SIZE) - 1) image_addr

/-- `boot_com_prepare_msg_rcv_cb`.  `preVal` is the result of
`boot_pre_validate_image` (configuration- and crypto-dependent);
`eraseOk` and `headWriteOk` are the flash oracles. -/
def boot_com_prepare_msg_rcv_cb (st : BootState) (fl : boot_flashing_t)
    (phead : ver_image_header_t) (preVal : Nat) (eraseOk : Nat → Bool)
    (headWriteOk : Bool) : CbOut :=
  let ms1 : Nat :=
    if st = .prepare then
      if preVal = eBOOT_MSG_OK then
        (boot_prepare_flash BOOT_CFG_APP_HEAD_ADDR phead.image_size eraseOk).status
      else preVal
    else eBOOT_MSG_ERROR_INVALID_REQ
  if ms1 = eBOOT_MSG_OK then
    if headWriteOk then
      { next := .flash, rsps := [(eBOOT_MSG_CMD_PREPARE_RSP, eBOOT_MSG_OK)],
        fl := { working_addr := (phead.image_addr + HEADER_SIZE) % 2 ^ 32,
                flashed_bytes := fl.flashed_bytes,
                fw_size := phead.image_size % 2 ^ 32 } }
    else
      { next := st, rsps := [(eBOOT_MSG_CMD_PREPARE_RSP, eBOOT_MSG_ERROR_FLASH_WRITE)],
        fl := fl }
  else
    { next := .idle, rsps := [(eBOOT_MSG_CMD_PREPARE_RSP, ms1)], fl := fl }

/-- `boot_com_flash_msg_rcv_cb` (chunk content abstracted: only the chunk
size and the write outcome are observable in the flashing context). -/
def boot_com_flash_msg_rcv_cb (st : BootState) (fl : boot_flashing_t)
    (size : Nat) (writeOk : Bool) : CbOut :=
  if st = .flash then
    if fl.flashed_bytes < fl.fw_size then
      if writeOk then
        let fl' : boot_flashing_t :=
          { working_addr := (fl.working_addr + size) % 2 ^ 32,
            flashed_bytes := (fl.flashed_bytes + size) % 2 ^ 32,
            fw_size := fl.fw_size }
        if fl'.flashed_bytes = fl'.fw_size then
          { next := .exit, rsps := [(eBOOT_MSG_CMD_FLASH_RSP, eBOOT_MSG_OK)], fl := fl' }
        else
          { next := .flash, rsps := [(eBOOT_MSG_CMD_FLASH_RSP, eBOOT_MSG_OK)], fl := fl' }
      else
        { next := .idle, rsps := [(eBOOT_MSG_CMD_FLASH_RSP, eBOOT_MSG_ERROR_FLASH_WRITE)],
          erased := true, fl := fl }
    else
      { next := .idle, rsps := [(eBOOT_MSG_CMD_FLASH_RSP, eBOOT_MSG_ERROR_FLASH_WRITE)],
        erased := true, fl := fl }
  else
    { next := .idle, rsps := [(eBOOT_MSG_CMD_FLASH_RSP, eBOOT_MSG_ERROR_INVALID_REQ)],
      erased := true, fl := fl }

/-- `boot_com_exit_msg_rcv_cb`.  `validateOk` is the outcome of
`boot_fw_image_validate`; `deinitOk` the outcome of `boot_if_deinit`
inside `boot_start_application` (the jump does not return on success; if
de-initialisation fails the handler falls through and emits the trailing
response a second time). -/
def boot_com_exit_msg_rcv_cb (st : BootState) (fl : boot_flashing_t)
    (validateOk : Bool) (deinitOk : Bool) : CbOut :=
  if st = .exit then
    if validateOk then
      if deinitOk then
        { next := st, rsps := [(eBOOT_MSG_CMD_EXIT_RSP, eBOOT_MSG_OK)], jumped := true,
          reasonSet := some eBOOT_REASON_NONE, cntSet := some 0, fl := fl }
      else
        { next := st,
          rsps := [(eBOOT_MSG_CMD_EXIT_RSP, eBOOT_MSG_OK), (eBOOT_MSG_CMD_EXIT_RSP, eBOOT_MSG_OK)],
          reasonSet := some eBOOT_REASON_NONE, cntSet := some 0, fl := fl }
    else
      { next := .idle, rsps := [(eBOOT_MSG_CMD_EXIT_RSP, eBOOT_MSG_ERROR_VALIDATION)],
        erased := true, fl := fl }
  else
    { next := .idle, rsps := [(eBOOT_MSG_CMD_EXIT_RSP, eBOOT_MSG_ERROR_INVALID_REQ)],
      fl := fl }

/-- `boot_com_info_msg_rcv_cb`. -/
def boot_com_info_msg_rcv_cb (st : BootState) (fl : boot_flashing_t) : CbOut :=
  if st = .idle then { next := st, rsps := [(eBOOT_MSG_CMD_INFO_RSP, eBOOT_MSG_OK)], fl := fl }
  else { next := st, rsps := [(eBOOT_MSG_CMD_INFO_RSP, eBOOT_MSG_ERROR_INVALID_REQ)], fl := fl }

def BOOT_CFG_PREPARE_IDLE_TIMEOUT_MS : Nat := 5000
def BOOT_CFG_FLASH_IDLE_TIMEOUT_MS : Nat := 100
def BOOT_CFG_EXIT_IDLE_TIMEOUT_MS : Nat := 5000

structure ActOut where
  next : BootState
  erased : Bool
  deriving Repr, DecidableEq

/-- `boot_fsm_prepare_hndl` (per-state timeout activity). -/
def boot_fsm_prepare_hndl (state_duration : Nat) : ActOut :=
  if BOOT_CFG_PREPARE_IDLE_TIMEOUT_MS ≤ state_duration then
    { next := .idle, erased := true }
  else { next := .prepare, erased := false }

/-- `boot_fsm_flash_hndl`. -/
def boot_fsm_flash_hndl (state_duration time_from_last_rx : Nat) : ActOut :=
  if BOOT_CFG_FLASH_IDLE_TIMEOUT_MS ≤ state_duration then
    if BOOT_CFG_FLASH_IDLE_TIMEOUT_MS ≤ time_from_last_rx then
      { next := .idle, erased := true }
    else { next := .flash, erased := false }
  else { next := .flash, erased := false }

/-- `boot_fsm_exit_hndl`. -/
def boot_fsm_exit_hndl (state_duration : Nat) : ActOut :=
  if BOOT_CFG_EXIT_IDLE_TIMEOUT_MS ≤ state_duration then
    { next := .idle, erased := true }
  else { next := .exit, erased := false }

/-- External oracles consumed while dispatching one accepted message. -/
structure DispatchEnv where
  phead : ver_image_header_t
  preVal : Nat
  eraseOk : Nat → Bool
  headWriteOk : Bool
  writeOk : Bool
  validateOk : Bool
  deinitOk : Bool

/-- No-callback outcome (command without a loader-side action). -/
def cb_noop (st : BootState) (fl : boot_flashing_t) : CbOut :=
  { next := st, rsps := [], fl := fl }

/-- `boot_com_hndl` dispatch over `g_parse_table` for one accepted
message, composed with the `boot_parse_*` wrappers: `boot_parse_prepare`
forwards only when the payload length equals
`sizeof(ver_image_header_t)`; response-direction commands have empty
loader-side callbacks; a command byte absent from the table dispatches
nothing. -/
def boot_com_hndl_dispatch (h : boot_header_t) (st : BootState)
    (fl : boot_flashing_t) (env : DispatchEnv) : CbOut :=
  if h.command = eBOOT_MSG_CMD_CONNECT then boot_com_connect_msg_rcv_cb st fl
  else if h.command = eBOOT_MSG_CMD_CONNECT_RSP then cb_noop st fl
  else if h.command = eBOOT_MSG_CMD_PREPARE then
    (if h.length = 256 then
      boot_com_prepare_msg_rcv_cb st fl env.phead env.preVal env.eraseOk env.headWriteOk
    else cb_noop st fl)
  else if h.command = eBOOT_MSG_CMD_PREPARE_RSP then cb_noop st fl
  else if h.command = eBOOT_MSG_CMD_FLASH then
    boot_com_flash_msg_rcv_cb st fl h.length env.writeOk
  else if h.command = eBOOT_MSG_CMD_FLASH_RSP then cb_noop st fl
  else if h.command = eBOOT_MSG_CMD_EXIT then
    boot_com_exit_msg_rcv_cb st fl env.validateOk env.deinitOk
  else if h.command = eBOOT_MSG_CMD_EXIT_RSP then cb_noop st fl
  else if h.command = eBOOT_MSG_CMD_INFO then boot_com_info_msg_rcv_cb st fl
  else if h.command = eBOOT_MSG_CMD_INFO_RSP then cb_noop st fl
  else cb_noop st fl

/-! ## Handoff (shared memory) region (`boot.c` V1.0.0, `boot_types.h`) -/

/-- `boot_shared_mem_t`: ctrl block (crc, layout version, 6 reserved
bytes) and data block (boot_ver u32, boot_reason, boot_cnt, 18 reserved
bytes), 32 bytes. -/
structure boot_shared_mem_t where
  crc : Nat := 0
  ver : Nat := 0
  ctrl_res : List Nat := List.replicate 6 0
  boot_ver : Nat := 0
  boot_reason : Nat := 0
  boot_cnt : Nat := 0
  data_res : List Nat := List.replicate 18 0
  deriving Repr, DecidableEq

/-- In-memory byte layout of the handoff region (32 bytes). -/
def boot_shared_mem_serialize (m : boot_shared_mem_t) : List Nat :=
  [m.crc % 256, m.ver % 256] ++ pad_to 6 m.ctrl_res ++ bytes_u32 m.boot_ver ++
  [m.boot_reason % 256, m.boot_cnt % 256] ++ pad_to 18 m.data_res

/-- `boot_shared_mem_calc_crc`: CRC-8 from the layout-version byte
(byte 1) through the end of the structure. -/
def boot_shared_mem_calc_crc (m : boot_shared_mem_t) : Nat :=
  boot_calc_crc ((boot_shared_mem_serialize m).drop 1)

def BOOT_SHARED_MEM_VER : Nat := 1

/-- Store the recomputed CRC into the region (`g_boot_shared_mem.ctrl.crc
= boot_shared_mem_calc_crc(...)`). -/
def boot_shared_mem_stamp (m : boot_shared_mem_t) : boot_shared_mem_t :=
  { m with crc := boot_shared_mem_calc_crc m }

/-- `boot_init_shared_mem` run at reset; `bootVerNow` is
`version_get_sw().U`. -/
def boot_init_shared_mem (bootVerNow : Nat) (m : boot_shared_mem_t) :
    boot_shared_mem_t :=
  let m1 :=
    if boot_shared_mem_calc_crc m = m.crc then
      if m.boot_cnt < 255 then { m with boot_cnt := m.boot_cnt + 1 } else m
    else { m with boot_cnt := 0, boot_reason := eBOOT_REASON_NONE }
  let m2 := { m1 with ver := BOOT_SHARED_MEM_VER, boot_ver := bootVerNow }
  boot_shared_mem_stamp m2

/-- `boot_shared_mem_get_version`; a `none` second component means the
caller's output variable was not written. -/
def boot_shared_mem_get_version (m : boot_shared_mem_t) (ptrNull : Bool) :
    Nat × Option Nat :=
  if ptrNull then (eBOOT_ERROR, none)
  else if m.crc = boot_shared_mem_calc_crc m then (eBOOT_OK, some m.ver)
  else (eBOOT_ERROR_CRC, none)

/-- `boot_shared_mem_get_boot_reason`. -/
def boot_shared_mem_get_boot_reason (m : boot_shared_mem_t) (ptrNull : Bool) :
    Nat × Option Nat :=
  if ptrNull then (eBOOT_ERROR, none)
  else if m.crc = boot_shared_mem_calc_crc m then (eBOOT_OK, some m.boot_reason)
  else (eBOOT_ERROR_CRC, none)

/-- `boot_shared_mem_get_boot_cnt`. -/
def boot_shared_mem_get_boot_cnt (m : boot_shared_mem_t) (ptrNull : Bool) :
    Nat × Option Nat :=
  if ptrNull then (eBOOT_ERROR, none)
  else if m.crc = boot_shared_mem_calc_crc m then (eBOOT_OK, some m.boot_cnt)
  else (eBOOT_ERROR_CRC, none)

/-- `boot_shared_mem_get_boot_ver`. -/
def boot_shared_mem_get_boot_ver (m : boot_shared_mem_t) (ptrNull : Bool) :
    Nat × Option Nat :=
  if ptrNull then (eBOOT_ERROR, none)
  else if m.crc = boot_shared_mem_calc_crc m then (eBOOT_OK, some m.boot_ver)
  else (eBOOT_ERROR_CRC, none)

/-! ## Claim theorems: upgrade FSM -/

/-- **C1 (amended).** Transitions into IDLE erase the resident header on
the FLASH-message error paths (wrong-state FLASH, write failure, data
after completion), on the PREPARE/FLASH/EXIT state timeouts and on the
EXIT post-validation failure; but a CONNECT received outside IDLE, an
EXIT received outside EXIT, and a failed PREPARE re-enter IDLE *without*
erasing the resident header (they only respond with the error status). -/
theorem idle_error_path_erase_behaviour :
    (∀ (st : BootState) (fl : boot_flashing_t), st ≠ .idle →
      (boot_com_connect_msg_rcv_cb st fl).next = .idle ∧
      (boot_com_connect_msg_rcv_cb st fl).rsps =
        [(eBOOT_MSG_CMD_CONNECT_RSP, eBOOT_MSG_ERROR_INVALID_REQ)] ∧
      (boot_com_connect_msg_rcv_cb st fl).erased = false) ∧
    (∀ (st : BootState) (fl : boot_flashing_t) (vOk dOk : Bool), st ≠ .exit →
      (boot_com_exit_msg_rcv_cb st fl vOk dOk).next = .idle ∧
      (boot_com_exit_msg_rcv_cb st fl vOk dOk).rsps =
        [(eBOOT_MSG_CMD_EXIT_RSP, eBOOT_MSG_ERROR_INVALID_REQ)] ∧
      (boot_com_exit_msg_rcv_cb st fl vOk dOk).erased = false) ∧
    (∀ (fl : boot_flashing_t) (ph : ver_image_header_t) (pv : Nat)
        (eOk : Nat → Bool) (wOk : Bool), pv ≠ eBOOT_MSG_OK →
      (boot_com_prepare_msg_rcv_cb .prepare fl ph pv eOk wOk).next = .idle ∧
      (boot_com_prepare_msg_rcv_cb .prepare fl ph pv eOk wOk).erased = false) ∧
    (∀ (st : BootState) (fl : boot_flashing_t) (size : Nat) (wOk : Bool),
      (boot_com_flash_msg_rcv_cb st fl size wOk).next = .idle →
      (boot_com_flash_msg_rcv_cb st fl size wOk).erased = true) ∧
    (∀ (fl : boot_flashing_t) (dOk : Bool),
      (boot_com_exit_msg_rcv_cb .exit fl false dOk).next = .idle ∧
      (boot_com_exit_msg_rcv_cb .exit fl false dOk).erased = true) ∧
    (∀ d, BOOT_CFG_PREPARE_IDLE_TIMEOUT_MS ≤ d →
      boot_fsm_prepare_hndl d = { next := .idle, erased := true }) ∧
    (∀ d r, BOOT_CFG_FLASH_IDLE_TIMEOUT_MS ≤ d → BOOT_CFG_FLASH_IDLE_TIMEOUT_MS ≤ r →
      boot_fsm_flash_hndl d r = { next := .idle, erased := true }) ∧
    (∀ d, BOOT_CFG_EXIT_IDLE_TIMEOUT_MS ≤ d →
      boot_fsm_exit_hndl d = { next := .idle, erased := true }) := by
  refine ⟨?_, ?_, ?_, ?_, ?_, ?_, ?_, ?_⟩
  · intro st fl hst
    cases st <;> simp_all [boot_com_connect_msg_rcv_cb]
  · intro st fl vOk dOk hst
    cases st <;> simp_all [boot_com_exit_msg_rcv_cb]
  · intro fl ph pv eOk wOk hpv
    simp [boot_com_prepare_msg_rcv_cb, hpv]
  · intro st fl size wOk h
    revert h
    cases st <;> simp [boot_com_flash_msg_rcv_cb] <;> split_ifs <;> simp
  · intro fl dOk
    simp [boot_com_exit_msg_rcv_cb]
  · intro d hd
    simp [boot_fsm_prepare_hndl, hd]
  · intro d r hd hr
    simp [boot_fsm_flash_hndl, hd, hr]
  · intro d hd
    simp [boot_fsm_exit_hndl, hd]

/-- Witness for C1 at concrete handler invocations. -/
theorem idle_error_path_erase_behaviour_witness :
    (boot_com_connect_msg_rcv_cb .flash ⟨0, 0, 0⟩).erased = false ∧
    (boot_com_exit_msg_rcv_cb .idle ⟨0, 0, 0⟩ true true).erased = false ∧
    (boot_com_prepare_msg_rcv_cb .prepare ⟨0, 0, 0⟩ {} eBOOT_MSG_ERROR_VALIDATION
      (fun _ => true) true).next = .idle ∧
    (boot_com_flash_msg_rcv_cb .idle ⟨0, 0, 0⟩ 4 true).erased = true ∧
    boot_fsm_prepare_hndl 5000 = { next := .idle, erased := true } ∧
    boot_fsm_flash_hndl 100 100 = { next := .idle, erased := true } ∧
    boot_fsm_exit_hndl 5000 = { next := .idle, erased := true } ∧
    (boot_com_exit_msg_rcv_cb .exit ⟨0, 0, 0⟩ false true).erased = true := by
  obtain ⟨h1, h2, h3, h4, h5, h6, h7, h8⟩ := idle_error_path_erase_behaviour
  exact ⟨(h1 .flash ⟨0, 0, 0⟩ (by decide)).2.2,
    (h2 .idle ⟨0, 0, 0⟩ true true (by decide)).2.2,
    (h3 ⟨0, 0, 0⟩ {} eBOOT_MSG_ERROR_VALIDATION (fun _ => true) true (by decide)).1,
    h4 _ _ _ _ (by decide), h6 5000 (by decide), h7 100 100 (by decide) (by decide),
    h8 5000 (by decide), (h5 ⟨0, 0, 0⟩ true).2⟩

/-- **C1 counterexample.** A CONNECT received in PREPARE and an EXIT
received in PREPARE both transition into IDLE on the error path
(responding INVALID_REQUEST) with the resident header *not* erased. -/
theorem connect_wrong_state_no_erase :
    (boot_com_connect_msg_rcv_cb .prepare ⟨0, 0, 0⟩).next = .idle ∧
    (boot_com_connect_msg_rcv_cb .prepare ⟨0, 0, 0⟩).rsps =
      [(eBOOT_MSG_CMD_CONNECT_RSP, eBOOT_MSG_ERROR_INVALID_REQ)] ∧
    (boot_com_connect_msg_rcv_cb .prepare ⟨0, 0, 0⟩).erased = false ∧
    (boot_com_exit_msg_rcv_cb .prepare ⟨0, 0, 0⟩ true true).next = .idle ∧
    (boot_com_exit_msg_rcv_cb .prepare ⟨0, 0, 0⟩ true true).rsps =
      [(eBOOT_MSG_CMD_EXIT_RSP, eBOOT_MSG_ERROR_INVALID_REQ)] ∧
    (boot_com_exit_msg_rcv_cb .prepare ⟨0, 0, 0⟩ true true).erased = false := by
  decide

/-- One handler step preserves the working-address relation. -/
lemma flash_step_addr (st : BootState) (fl : boot_flashing_t) (size : Nat)
    (wOk : Bool) (A : Nat)
    (h : fl.working_addr = (A + HEADER_SIZE + fl.flashed_bytes) % 2 ^ 32) :
    (boot_com_flash_msg_rcv_cb st fl size wOk).fl.working_addr =
      (A + HEADER_SIZE + (boot_com_flash_msg_rcv_cb st fl size wOk).fl.flashed_bytes) %
        2 ^ 32 := by
  cases st <;> simp [boot_com_flash_msg_rcv_cb, h]
  split_ifs <;> simp [h] <;> (congr 1; omega)

/-- The sequence of FLASH-message handler invocations, threading state
and flashing context. -/
def boot_flash_run (st : BootState) (fl : boot_flashing_t)
    (msgs : List (Nat × Bool)) : BootState × boot_flashing_t :=
  msgs.foldl
    (fun s m =>
      ((boot_com_flash_msg_rcv_cb s.1 s.2 m.1 m.2).next,
       (boot_com_flash_msg_rcv_cb s.1 s.2 m.1 m.2).fl))
    (st, fl)

lemma flash_run_addr (msgs : List (Nat × Bool)) (st : BootState)
    (fl : boot_flashing_t) (A : Nat)
    (h : fl.working_addr = (A + HEADER_SIZE + fl.flashed_bytes) % 2 ^ 32) :
    (boot_flash_run st fl msgs).2.working_addr =
      (A + HEADER_SIZE + (boot_flash_run st fl msgs).2.flashed_bytes) % 2 ^ 32 := by
  induction msgs generalizing st fl with
  | nil => exact h
  | cons m msgs ih =>
    exact ih _ _ (flash_step_addr st fl m.1 m.2 A h)

/-- **C2 (amended).** Along every sequence of FLASH-message handler
invocations the relation `working_addr = image_addr + HEADER_SIZE +
flashed_bytes (mod 2^32)` is preserved, and it is established (with
`flashed_bytes = 0`, cleared on IDLE entry) by a successful PREPARE; the
bound `flashed_bytes ≤ image_size`, however, holds only when every
accepted chunk fits in the remaining bytes — it is preserved per step
under the hypothesis `size ≤ image_size − flashed_bytes`. -/
theorem flash_ctx_invariant :
    (∀ (msgs : List (Nat × Bool)) (st : BootState) (fl : boot_flashing_t) (A : Nat),
      fl.working_addr = (A + HEADER_SIZE + fl.flashed_bytes) % 2 ^ 32 →
      (boot_flash_run st fl msgs).2.working_addr =
        (A + HEADER_SIZE + (boot_flash_run st fl msgs).2.flashed_bytes) % 2 ^ 32) ∧
    (∀ (fl : boot_flashing_t) (ph : ver_image_header_t) (pv : Nat)
        (eOk : Nat → Bool) (wOk : Bool),
      fl.flashed_bytes = 0 →
      (boot_com_prepare_msg_rcv_cb .prepare fl ph pv eOk wOk).next = .flash →
      (boot_com_prepare_msg_rcv_cb .prepare fl ph pv eOk wOk).fl.working_addr =
        (ph.image_addr + HEADER_SIZE +
          (boot_com_prepare_msg_rcv_cb .prepare fl ph pv eOk wOk).fl.flashed_bytes) %
            2 ^ 32 ∧
      (boot_com_prepare_msg_rcv_cb .prepare fl ph pv eOk wOk).fl.flashed_bytes = 0) ∧
    (∀ (st : BootState) (fl : boot_flashing_t) (size : Nat) (wOk : Bool),
      fl.flashed_bytes ≤ fl.fw_size → fl.fw_size < 2 ^ 32 →
      size ≤ fl.fw_size - fl.flashed_bytes →
      (boot_com_flash_msg_rcv_cb st fl size wOk).fl.flashed_bytes ≤
        (boot_com_flash_msg_rcv_cb st fl size wOk).fl.fw_size) := by
  refine ⟨flash_run_addr, ?_, ?_⟩
  · intro fl ph pv eOk wOk h0 hnext
    revert hnext
    simp only [boot_com_prepare_msg_rcv_cb]
    split_ifs <;> simp_all
  · intro st fl size wOk hle hlt hfit
    cases st <;> simp [boot_com_flash_msg_rcv_cb, hle]
    split_ifs <;> simp_all
    rw [Nat.mod_eq_of_lt (by omega)]
    omega

/-- Witness for C2 at a concrete PREPARE followed by two FLASH chunks. -/
theorem flash_ctx_invariant_witness :
    (boot_flash_run .flash ⟨HEADER_SIZE, 0, 8⟩ [(4, true), (4, true)]).2.working_addr =
      (0 + HEADER_SIZE +
        (boot_flash_run .flash ⟨HEADER_SIZE, 0, 8⟩ [(4, true), (4, true)]).2.flashed_bytes) %
          2 ^ 32 ∧
    (boot_com_prepare_msg_rcv_cb .prepare ⟨0, 0, 0⟩ { image_addr := 0, image_size := 4 }
        eBOOT_MSG_OK (fun _ => true) true).fl.flashed_bytes = 0 ∧
    (boot_com_flash_msg_rcv_cb .flash ⟨HEADER_SIZE, 0, 8⟩ 4 true).fl.flashed_bytes ≤
      (boot_com_flash_msg_rcv_cb .flash ⟨HEADER_SIZE, 0, 8⟩ 4 true).fl.fw_size := by
  obtain ⟨h1, h2, h3⟩ := flash_ctx_invariant
  exact ⟨h1 [(4, true), (4, true)] .flash ⟨HEADER_SIZE, 0, 8⟩ 0 (by decide),
    (h2 ⟨0, 0, 0⟩ { image_addr := 0, image_size := 4 } eBOOT_MSG_OK (fun _ => true) true
      (by decide)
      (by simp [boot_com_prepare_msg_rcv_cb, boot_prepare_flash, boot_prepare_flash_loop,
        BOOT_CFG_APP_HEAD_ADDR, HEADER_SIZE, FLASH_PAGE_SIZE, eBOOT_MSG_OK])).2,
    h3 .flash ⟨HEADER_SIZE, 0, 8⟩ 4 true (by decide) (by decide) (by decide)⟩

/-- **C2 counterexample.** In FLASH with `image_size = 10` and no bytes
flashed yet, a single 16-byte chunk is accepted (response OK, state stays
FLASH) and leaves `flashed_bytes = 16 > 10 = image_size`: the invariant
`flashed_bytes ≤ image_size` fails at an acknowledgement boundary. -/
theorem flash_overshoot_counterexample :
    (boot_com_flash_msg_rcv_cb .flash ⟨BOOT_CFG_APP_HEAD_ADDR + HEADER_SIZE, 0, 10⟩
        16 true).next = .flash ∧
    (boot_com_flash_msg_rcv_cb .flash ⟨BOOT_CFG_APP_HEAD_ADDR + HEADER_SIZE, 0, 10⟩
        16 true).rsps = [(eBOOT_MSG_CMD_FLASH_RSP, eBOOT_MSG_OK)] ∧
    (boot_com_flash_msg_rcv_cb .flash ⟨BOOT_CFG_APP_HEAD_ADDR + HEADER_SIZE, 0, 10⟩
        16 true).fl.flashed_bytes = 16 ∧
    (boot_com_flash_msg_rcv_cb .flash ⟨BOOT_CFG_APP_HEAD_ADDR + HEADER_SIZE, 0, 10⟩
        16 true).fl.fw_size = 10 ∧
    ¬ ((boot_com_flash_msg_rcv_cb .flash ⟨BOOT_CFG_APP_HEAD_ADDR + HEADER_SIZE, 0, 10⟩
        16 true).fl.flashed_bytes ≤
       (boot_com_flash_msg_rcv_cb .flash ⟨BOOT_CFG_APP_HEAD_ADDR + HEADER_SIZE, 0, 10⟩
        16 true).fl.fw_size) := by
  decide

lemma connect_cb_one_rsp (st : BootState) (fl : boot_flashing_t) :
    (boot_com_connect_msg_rcv_cb st fl).rsps.length = 1 := by
  simp only [boot_com_connect_msg_rcv_cb]
  split <;> rfl

lemma prepare_cb_one_rsp (st : BootState) (fl : boot_flashing_t)
    (ph : ver_image_header_t) (pv : Nat) (eOk : Nat → Bool) (wOk : Bool) :
    (boot_com_prepare_msg_rcv_cb st fl ph pv eOk wOk).rsps.length = 1 := by
  simp only [boot_com_prepare_msg_rcv_cb]
  split_ifs <;> rfl

lemma flash_cb_one_rsp (st : BootState) (fl : boot_flashing_t) (size : Nat)
    (wOk : Bool) :
    (boot_com_flash_msg_rcv_cb st fl size wOk).rsps.length = 1 := by
  simp only [boot_com_flash_msg_rcv_cb]
  split_ifs <;> rfl

lemma exit_cb_one_rsp (st : BootState) (fl : boot_flashing_t) (vOk : Bool) :
    (boot_com_exit_msg_rcv_cb st fl vOk true).rsps.length = 1 := by
  simp only [boot_com_exit_msg_rcv_cb]
  split_ifs <;> first | rfl | simp_all

lemma info_cb_one_rsp (st : BootState) (fl : boot_flashing_t) :
    (boot_com_info_msg_rcv_cb st fl).rsps.length = 1 := by
  simp only [boot_com_info_msg_rcv_cb]
  split <;> rfl

/-- **C3 (amended).** For every accepted message whose command byte is a
request the loader handles — CONNECT, FLASH, INFO, EXIT (the latter
provided the jump's de-initialisation does not fail and fall through) —
the dispatcher emits exactly one response, error responses included; a
PREPARE is answered exactly once when its payload length equals the
256-byte image-header size and is silently dropped otherwise; messages
with response-direction command bytes and messages with command bytes
absent from the parse table produce no response. -/
theorem dispatch_single_response :
    (∀ (h : boot_header_t) (st : BootState) (fl : boot_flashing_t) (env : DispatchEnv),
      h.command = eBOOT_MSG_CMD_CONNECT ∨ h.command = eBOOT_MSG_CMD_FLASH ∨
        h.command = eBOOT_MSG_CMD_INFO →
      (boot_com_hndl_dispatch h st fl env).rsps.length = 1) ∧
    (∀ (h : boot_header_t) (st : BootState) (fl : boot_flashing_t) (env : DispatchEnv),
      h.command = eBOOT_MSG_CMD_EXIT → env.deinitOk = true →
      (boot_com_hndl_dispatch h st fl env).rsps.length = 1) ∧
    (∀ (h : boot_header_t) (st : BootState) (fl : boot_flashing_t) (env : DispatchEnv),
      h.command = eBOOT_MSG_CMD_PREPARE →
      (boot_com_hndl_dispatch h st fl env).rsps.length =
        (if h.length = 256 then 1 else 0)) ∧
    (∀ (h : boot_header_t) (st : BootState) (fl : boot_flashing_t) (env : DispatchEnv),
      h.command = eBOOT_MSG_CMD_CONNECT_RSP ∨ h.command = eBOOT_MSG_CMD_PREPARE_RSP ∨
        h.command = eBOOT_MSG_CMD_FLASH_RSP ∨ h.command = eBOOT_MSG_CMD_EXIT_RSP ∨
        h.command = eBOOT_MSG_CMD_INFO_RSP →
      (boot_com_hndl_dispatch h st fl env).rsps = []) ∧
    (∀ (h : boot_header_t) (st : BootState) (fl : boot_flashing_t) (env : DispatchEnv),
      h.command ∉ ([eBOOT_MSG_CMD_CONNECT, eBOOT_MSG_CMD_CONNECT_RSP,
        eBOOT_MSG_CMD_PREPARE, eBOOT_MSG_CMD_PREPARE_RSP, eBOOT_MSG_CMD_FLASH,
        eBOOT_MSG_CMD_FLASH_RSP, eBOOT_MSG_CMD_EXIT, eBOOT_MSG_CMD_EXIT_RSP,
        eBOOT_MSG_CMD_INFO, eBOOT_MSG_CMD_INFO_RSP] : List Nat) →
      (boot_com_hndl_dispatch h st fl env).rsps = []) := by
  refine ⟨?_, ?_, ?_, ?_, ?_⟩
  · intro h st fl env hcmd
    rcases hcmd with hc | hc | hc <;>
      simp [boot_com_hndl_dispatch, hc, eBOOT_MSG_CMD_CONNECT, eBOOT_MSG_CMD_CONNECT_RSP,
        eBOOT_MSG_CMD_PREPARE, eBOOT_MSG_CMD_PREPARE_RSP, eBOOT_MSG_CMD_FLASH,
        eBOOT_MSG_CMD_FLASH_RSP, eBOOT_MSG_CMD_EXIT, eBOOT_MSG_CMD_EXIT_RSP,
        eBOOT_MSG_CMD_INFO, eBOOT_MSG_CMD_INFO_RSP, connect_cb_one_rsp, flash_cb_one_rsp,
        info_cb_one_rsp]
  · intro h st fl env hcmd hd
    simp [boot_com_hndl_dispatch, hcmd, eBOOT_MSG_CMD_CONNECT, eBOOT_MSG_CMD_CONNECT_RSP,
      eBOOT_MSG_CMD_PREPARE, eBOOT_MSG_CMD_PREPARE_RSP, eBOOT_MSG_CMD_FLASH,
      eBOOT_MSG_CMD_FLASH_RSP, eBOOT_MSG_CMD_EXIT]
    rw [hd]
    exact exit_cb_one_rsp st fl env.validateOk
  · intro h st fl env hcmd
    simp only [boot_com_hndl_dispatch, hcmd, eBOOT_MSG_CMD_CONNECT, eBOOT_MSG_CMD_CONNECT_RSP,
      eBOOT_MSG_CMD_PREPARE]
    norm_num
    split <;> simp [prepare_cb_one_rsp, cb_noop]
  · intro h st fl env hcmd
    rcases hcmd with hc | hc | hc | hc | hc <;>
      simp [boot_com_hndl_dispatch, hc, eBOOT_MSG_CMD_CONNECT, eBOOT_MSG_CMD_CONNECT_RSP,
        eBOOT_MSG_CMD_PREPARE, eBOOT_MSG_CMD_PREPARE_RSP, eBOOT_MSG_CMD_FLASH,
        eBOOT_MSG_CMD_FLASH_RSP, eBOOT_MSG_CMD_EXIT, eBOOT_MSG_CMD_EXIT_RSP,
        eBOOT_MSG_CMD_INFO, eBOOT_MSG_CMD_INFO_RSP, cb_noop]
  · intro h st fl env hcmd
    simp only [List.mem_cons, List.not_mem_nil, or_false, not_or] at hcmd
    obtain ⟨n1, n2, n3, n4, n5, n6, n7, n8, n9, n10⟩ := hcmd
    simp [boot_com_hndl_dispatch, n1, n2, n3, n4, n5, n6, n7, n8, n9, n10, cb_noop]

/-- Witness for C3 at concrete dispatches. -/
theorem dispatch_single_response_witness :
    (boot_com_hndl_dispatch ⟨0x07B0, 0, 0x2B, eBOOT_MSG_CMD_CONNECT, 0, 155⟩ .idle ⟨0, 0, 0⟩
      ⟨{}, eBOOT_MSG_OK, fun _ => true, true, true, true, true⟩).rsps.length = 1 ∧
    (boot_com_hndl_dispatch ⟨0x07B0, 0, 0x2B, eBOOT_MSG_CMD_EXIT, 0, 0⟩ .idle ⟨0, 0, 0⟩
      ⟨{}, eBOOT_MSG_OK, fun _ => true, true, true, true, true⟩).rsps.length = 1 ∧
    (boot_com_hndl_dispatch ⟨0x07B0, 256, 0x2B, eBOOT_MSG_CMD_PREPARE, 0, 0⟩ .idle ⟨0, 0, 0⟩
      ⟨{}, eBOOT_MSG_OK, fun _ => true, true, true, true, true⟩).rsps.length = 1 ∧
    (boot_com_hndl_dispatch ⟨0x07B0, 0, 0x2B, eBOOT_MSG_CMD_CONNECT_RSP, 0, 0⟩ .idle
      ⟨0, 0, 0⟩ ⟨{}, eBOOT_MSG_OK, fun _ => true, true, true, true, true⟩).rsps = [] ∧
    (boot_com_hndl_dispatch ⟨0x07B0, 0, 0x2B, 0x55, 0, 0⟩ .idle ⟨0, 0, 0⟩
      ⟨{}, eBOOT_MSG_OK, fun _ => true, true, true, true, true⟩).rsps = [] := by
  obtain ⟨h1, h2, h3, h4, h5⟩ := dispatch_single_response
  refine ⟨h1 _ _ _ _ (Or.inl rfl), h2 _ _ _ _ rfl rfl, ?_, h4 _ _ _ _ (Or.inl rfl),
    h5 _ _ _ _ (by decide)⟩
  have := h3 ⟨0x07B0, 256, 0x2B, eBOOT_MSG_CMD_PREPARE, 0, 0⟩ .idle ⟨0, 0, 0⟩
    ⟨{}, eBOOT_MSG_OK, fun _ => true, true, true, true, true⟩ rfl
  simpa using this

/-- **C3 counterexample.** A syntactically valid PREPARE frame whose
payload length is 12 (not the 256-byte image-header size) is accepted by
the parser with OK, yet the dispatcher emits *no* response for it: the
message is silently dropped, contradicting the claim. -/
theorem prepare_wrong_length_silent_drop :
    (boot_parse_hndl RxParser.reset
        ([0xB0, 0x07, 0x0C, 0x00, 0x2B, 0x20, 0x00, 46] ++ List.replicate 12 0)).status =
      eBOOT_OK ∧
    (decode_header [0xB0, 0x07, 0x0C, 0x00, 0x2B, 0x20, 0x00, 46]).command =
      eBOOT_MSG_CMD_PREPARE ∧
    (decode_header [0xB0, 0x07, 0x0C, 0x00, 0x2B, 0x20, 0x00, 46]).length ≠ 256 ∧
    (boot_com_hndl_dispatch (decode_header [0xB0, 0x07, 0x0C, 0x00, 0x2B, 0x20, 0x00, 46])
        .prepare ⟨0, 0, 0⟩ ⟨{}, eBOOT_MSG_OK, fun _ => true, true, true, true, true⟩).rsps =
      [] := by
  exact ⟨by decide, by decide, by decide, rfl⟩

/-- Closed form of the erase loop when every page erase succeeds. -/
lemma prepare_flash_loop_all_ok (eOk : Nat → Bool) (hall : ∀ p, eOk p = true) :
    ∀ (n w : Nat),
      boot_prepare_flash_loop eOk (w + n) w =
        { status := eBOOT_MSG_OK,
          pages := (List.range ((n + FLASH_PAGE_SIZE - 1) / FLASH_PAGE_SIZE)).map
            (fun k => w + FLASH_PAGE_SIZE * k),
          kicks := (n + FLASH_PAGE_SIZE - 1) / FLASH_PAGE_SIZE } := by
  intro n
  induction n using Nat.strong_induction_on with
  | _ n ih =>
    intro w
    rcases Nat.eq_zero_or_pos n with hn | hn
    · subst hn
      rw [boot_prepare_flash_loop]
      simp [FLASH_PAGE_SIZE]
    · rw [boot_prepare_flash_loop]
      rw [dif_pos (by omega)]
      rw [hall w]
      simp only [if_true]
      by_cases hsmall : n ≤ FLASH_PAGE_SIZE
      · have hbase : boot_prepare_flash_loop eOk (w + n) (w + FLASH_PAGE_SIZE) =
            { status := eBOOT_MSG_OK, pages := [], kicks := 0 } := by
          rw [boot_prepare_flash_loop]
          rw [dif_neg (by omega)]
        rw [hbase]
        have hcount : (n + FLASH_PAGE_SIZE - 1) / FLASH_PAGE_SIZE = 1 := by
          simp only [FLASH_PAGE_SIZE] at hsmall ⊢
          omega
        rw [hcount]
        rw [show List.range 1 = [0] from rfl]
        simp
      · have harg : w + n = (w + FLASH_PAGE_SIZE) + (n - FLASH_PAGE_SIZE) := by
          simp only [FLASH_PAGE_SIZE] at hsmall ⊢
          omega
        rw [harg, ih (n - FLASH_PAGE_SIZE) (by simp only [FLASH_PAGE_SIZE] at hsmall ⊢; omega)]
        have hcount : (n + FLASH_PAGE_SIZE - 1) / FLASH_PAGE_SIZE =
            ((n - FLASH_PAGE_SIZE) + FLASH_PAGE_SIZE - 1) / FLASH_PAGE_SIZE + 1 := by
          simp only [FLASH_PAGE_SIZE] at hsmall ⊢
          omega
        have hpages :
            (List.range ((n - FLASH_PAGE_SIZE + FLASH_PAGE_SIZE - 1) / FLASH_PAGE_SIZE + 1)).map
                (fun k => w + FLASH_PAGE_SIZE * k) =
              w :: (List.range ((n - FLASH_PAGE_SIZE + FLASH_PAGE_SIZE - 1) /
                  FLASH_PAGE_SIZE)).map (fun k => w + FLASH_PAGE_SIZE + FLASH_PAGE_SIZE * k) := by
          rw [List.range_succ_eq_map, List.map_cons, List.map_map]
          rw [show w + FLASH_PAGE_SIZE * 0 = w by simp]
          congr 1
          refine List.map_congr_left fun a _ => ?_
          simp only [Function.comp, Nat.mul_succ]
          omega
        rw [hcount, hpages]

/-- The erase loop reports either OK or the flash-erase error. -/
lemma prepare_flash_loop_status (eOk : Nat → Bool) :
    ∀ (n e w : Nat), e - w ≤ n →
      (boot_prepare_flash_loop eOk e w).status = eBOOT_MSG_OK ∨
      (boot_prepare_flash_loop eOk e w).status = eBOOT_MSG_ERROR_FLASH_ERASE := by
  intro n
  induction n with
  | zero =>
    intro e w h
    rw [boot_prepare_flash_loop, dif_neg (by omega)]
    exact Or.inl rfl
  | succ n ih =>
    intro e w h
    rw [boot_prepare_flash_loop]
    by_cases hlt : w < e
    · rw [dif_pos hlt]
      cases heq : eOk w
      · simp only [heq]
        exact Or.inr rfl
      · simp only [heq, if_true]
        exact ih e (w + FLASH_PAGE_SIZE) (by simp only [FLASH_PAGE_SIZE] at h ⊢; omega)
    · rw [dif_neg hlt]
      exact Or.inl rfl

/-- **C5 (amended).** When a PREPARE is handled in PREPARE and
pre-validation succeeds, the loader erases consecutive pages starting at
`APP_HEAD_ADDR`, `ceil((image_size + HEADER_SIZE − 1) / PAGE_SIZE)` of
them — one page short of covering the claimed region
`[image_addr, image_addr + HEADER_SIZE + image_size)` exactly when
`image_size + HEADER_SIZE ≡ 1 (mod PAGE_SIZE)` — kicking the watchdog
after each page and reporting FLASH_ERASE on an erase failure (entering
IDLE); on success it writes the supplied header, sets
`working_addr = image_addr + HEADER_SIZE` and `image_size` while leaving
`flashed_bytes` unchanged (zero, cleared on IDLE entry), enters FLASH and
responds OK; a pre-validation failure enters IDLE with that status; a
header-write failure responds FLASH_WRITE but stays in PREPARE. -/
theorem prepare_handler_behaviour :
    (∀ (a s : Nat) (eOk : Nat → Bool), (∀ p, eOk p = true) →
      boot_prepare_flash a s eOk =
        { status := eBOOT_MSG_OK,
          pages := (List.range ((s + HEADER_SIZE - 1 + FLASH_PAGE_SIZE - 1) /
              FLASH_PAGE_SIZE)).map (fun k => a + FLASH_PAGE_SIZE * k),
          kicks := (s + HEADER_SIZE - 1 + FLASH_PAGE_SIZE - 1) / FLASH_PAGE_SIZE }) ∧
    (∀ (a s : Nat) (eOk : Nat → Bool),
      (boot_prepare_flash a s eOk).status = eBOOT_MSG_OK ∨
      (boot_prepare_flash a s eOk).status = eBOOT_MSG_ERROR_FLASH_ERASE) ∧
    (∀ (fl : boot_flashing_t) (ph : ver_image_header_t) (eOk : Nat → Bool),
      (boot_prepare_flash BOOT_CFG_APP_HEAD_ADDR ph.image_size eOk).status = eBOOT_MSG_OK →
      boot_com_prepare_msg_rcv_cb .prepare fl ph eBOOT_MSG_OK eOk true =
        ⟨.flash, [(eBOOT_MSG_CMD_PREPARE_RSP, eBOOT_MSG_OK)],
          ⟨(ph.image_addr + HEADER_SIZE) % 2 ^ 32, fl.flashed_bytes,
            ph.image_size % 2 ^ 32⟩, false, false, none, none⟩) ∧
    (∀ (fl : boot_flashing_t) (ph : ver_image_header_t) (eOk : Nat → Bool),
      (boot_prepare_flash BOOT_CFG_APP_HEAD_ADDR ph.image_size eOk).status ≠ eBOOT_MSG_OK →
      boot_com_prepare_msg_rcv_cb .prepare fl ph eBOOT_MSG_OK eOk true =
        ⟨.idle, [(eBOOT_MSG_CMD_PREPARE_RSP,
          (boot_prepare_flash BOOT_CFG_APP_HEAD_ADDR ph.image_size eOk).status)],
          fl, false, false, none, none⟩) ∧
    (∀ (fl : boot_flashing_t) (ph : ver_image_header_t) (pv : Nat) (eOk : Nat → Bool)
        (wOk : Bool), pv ≠ eBOOT_MSG_OK →
      boot_com_prepare_msg_rcv_cb .prepare fl ph pv eOk wOk =
        ⟨.idle, [(eBOOT_MSG_CMD_PREPARE_RSP, pv)], fl, false, false, none, none⟩) ∧
    (∀ (fl : boot_flashing_t) (ph : ver_image_header_t) (eOk : Nat → Bool),
      (boot_prepare_flash BOOT_CFG_APP_HEAD_ADDR ph.image_size eOk).status = eBOOT_MSG_OK →
      boot_com_prepare_msg_rcv_cb .prepare fl ph eBOOT_MSG_OK eOk false =
        ⟨.prepare, [(eBOOT_MSG_CMD_PREPARE_RSP, eBOOT_MSG_ERROR_FLASH_WRITE)],
          fl, false, false, none, none⟩) := by
  refine ⟨?_, ?_, ?_, ?_, ?_, ?_⟩
  · intro a s eOk hall
    have harg : a + (s + HEADER_SIZE) - 1 = a + (s + HEADER_SIZE - 1) := by
      simp [HEADER_SIZE]
    rw [boot_prepare_flash, harg, prepare_flash_loop_all_ok eOk hall]
  · intro a s eOk
    exact prepare_flash_loop_status eOk _ _ _ (le_refl _)
  · intro fl ph eOk hok
    simp [boot_com_prepare_msg_rcv_cb, hok]
  · intro fl ph eOk hbad
    simp [boot_com_prepare_msg_rcv_cb, hbad]
  · intro fl ph pv eOk wOk hpv
    simp [boot_com_prepare_msg_rcv_cb, hpv]
  · intro fl ph eOk hok
    simp [boot_com_prepare_msg_rcv_cb, hok]

/-- Witness for C5 at a concrete 4-byte image. -/
theorem prepare_handler_behaviour_witness :
    boot_prepare_flash BOOT_CFG_APP_HEAD_ADDR 4 (fun _ => true) =
      { status := eBOOT_MSG_OK, pages := [BOOT_CFG_APP_HEAD_ADDR], kicks := 1 } ∧
    (boot_com_prepare_msg_rcv_cb .prepare ⟨0, 0, 0⟩ { image_addr := 0, image_size := 4 }
      eBOOT_MSG_OK (fun _ => true) true).next = .flash ∧
    (boot_com_prepare_msg_rcv_cb .prepare ⟨0, 0, 0⟩ { image_addr := 0, image_size := 4 }
      eBOOT_MSG_ERROR_FW_SIZE (fun _ => true) true).next = .idle ∧
    (boot_com_prepare_msg_rcv_cb .prepare ⟨0, 0, 0⟩ { image_addr := 0, image_size := 4 }
      eBOOT_MSG_OK (fun _ => true) false).next = .prepare := by
  obtain ⟨h1, h2, h3, h4, h5, h6⟩ := prepare_handler_behaviour
  have e1 := h1 BOOT_CFG_APP_HEAD_ADDR 4 (fun _ => true) (fun _ => rfl)
  have hs : (boot_prepare_flash BOOT_CFG_APP_HEAD_ADDR
      (({ image_addr := 0, image_size := 4 } : ver_image_header_t).image_size)
      (fun _ => true)).status = eBOOT_MSG_OK := by
    rw [show (({ image_addr := 0, image_size := 4 } : ver_image_header_t).image_size) = 4
      from rfl, e1]
  refine ⟨?_, ?_, ?_, ?_⟩
  · rw [e1]
    decide
  · rw [h3 ⟨0, 0, 0⟩ { image_addr := 0, image_size := 4 } (fun _ => true) hs]
  · rw [h5 ⟨0, 0, 0⟩ { image_addr := 0, image_size := 4 } eBOOT_MSG_ERROR_FW_SIZE
      (fun _ => true) true (by decide)]
  · rw [h6 ⟨0, 0, 0⟩ { image_addr := 0, image_size := 4 } (fun _ => true) hs]

/-- **C5 counterexample.** With `image_size = 1793` (and the vendor page
size 2048) the erase loop erases a single page `[APP_HEAD_ADDR,
APP_HEAD_ADDR + 2048)` and reports OK, yet the byte at
`APP_HEAD_ADDR + 2048` lies inside the claimed erase region
`[image_addr, image_addr + HEADER_SIZE + image_size)` and inside no
erased page: the region is not erased exactly as claimed. -/
theorem erase_region_last_page_missed :
    (boot_prepare_flash BOOT_CFG_APP_HEAD_ADDR 1793 (fun _ => true)).status =
      eBOOT_MSG_OK ∧
    (boot_prepare_flash BOOT_CFG_APP_HEAD_ADDR 1793 (fun _ => true)).pages =
      [BOOT_CFG_APP_HEAD_ADDR] ∧
    BOOT_CFG_APP_HEAD_ADDR + 2048 < BOOT_CFG_APP_HEAD_ADDR + HEADER_SIZE + 1793 ∧
    (∀ p ∈ (boot_prepare_flash BOOT_CFG_APP_HEAD_ADDR 1793 (fun _ => true)).pages,
      ¬ (p ≤ BOOT_CFG_APP_HEAD_ADDR + 2048 ∧
         BOOT_CFG_APP_HEAD_ADDR + 2048 < p + FLASH_PAGE_SIZE)) := by
  have e : boot_prepare_flash BOOT_CFG_APP_HEAD_ADDR 1793 (fun _ => true) =
      { status := eBOOT_MSG_OK, pages := [BOOT_CFG_APP_HEAD_ADDR], kicks := 1 } := by
    simp [boot_prepare_flash, boot_prepare_flash_loop, BOOT_CFG_APP_HEAD_ADDR, HEADER_SIZE,
      FLASH_PAGE_SIZE]
  rw [e]
  decide

/-! ## Claim theorems: post-validation and handoff region -/

/-- A CRC-valid header with a signature type other than ECDSA or NONE is
accepted by post-validation without any payload check (the debug
assertion being disabled). -/
lemma validate_other_sig (env : SigEnv) (flash : Nat → Nat)
    (hdr : ver_image_header_t) (hchk : boot_app_header_check hdr = eBOOT_OK)
    (h1 : hdr.sig_type ≠ eVER_SIG_TYPE_ECSDA) (h0 : hdr.sig_type ≠ eVER_SIG_TYPE_NONE) :
    boot_fw_image_validate env flash true hdr = ⟨eBOOT_OK, false⟩ := by
  have hread : boot_app_head_read true hdr = eBOOT_OK := by
    simp [boot_app_head_read, hchk]
  simp [boot_fw_image_validate, hread, h1, h0]

/-- **C4 (amended).** Post-validation re-reads the resident header and
re-verifies its CRC; with `signature_type = ECDSA` it SHA-256-hashes the
written payload (`image_size` bytes at the fixed resident location
`APP_HEAD_ADDR + HEADER_SIZE`) and ECDSA-verifies it against the public
key and the header's signature field; with `signature_type = NONE` it
compares the CRC-32 of the same bytes to `image_crc`; a payload-check
failure erases the resident header and the jump is refused (the EXIT
handler does not call the jump).  However: a failed header read or
header-CRC check refuses the jump *without* erasing, and any other
`signature_type` merely raises the (disabled) debug assertion and is
accepted with no payload check at all. -/
theorem post_validation_behaviour :
    (∀ (env : SigEnv) (flash : Nat → Nat) (readOk : Bool) (hdr : ver_image_header_t),
      boot_app_head_read readOk hdr ≠ eBOOT_OK →
      (boot_fw_image_validate env flash readOk hdr).status ≠ eBOOT_OK ∧
      (boot_fw_image_validate env flash readOk hdr).erased = false) ∧
    (∀ (env : SigEnv) (flash : Nat → Nat) (hdr : ver_image_header_t),
      boot_app_header_check hdr = eBOOT_OK →
      hdr.sig_type = eVER_SIG_TYPE_ECSDA →
      boot_fw_image_validate env flash true hdr =
        (if boot_fw_image_check_sig env flash hdr = eBOOT_OK then ⟨eBOOT_OK, false⟩
         else ⟨eBOOT_ERROR, true⟩)) ∧
    (∀ (env : SigEnv) (flash : Nat → Nat) (hdr : ver_image_header_t),
      boot_app_header_check hdr = eBOOT_OK →
      hdr.sig_type = eVER_SIG_TYPE_NONE →
      boot_fw_image_validate env flash true hdr =
        (if boot_fw_image_calc_crc32 (fw_payload_bytes flash hdr.image_size) =
            hdr.image_crc then ⟨eBOOT_OK, false⟩
         else ⟨eBOOT_ERROR, true⟩)) ∧
    (∀ (env : SigEnv) (flash : Nat → Nat) (hdr : ver_image_header_t),
      (boot_fw_image_check_sig env flash hdr = eBOOT_OK ↔
        (env.validPub env.pubKey = true ∧
         env.verify env.pubKey (env.sha256 (fw_payload_bytes flash hdr.image_size))
           hdr.signature = true))) ∧
    (∀ (env : SigEnv) (flash : Nat → Nat) (hdr : ver_image_header_t),
      boot_app_header_check hdr = eBOOT_OK → hdr.sig_type ≠ eVER_SIG_TYPE_ECSDA →
      hdr.sig_type ≠ eVER_SIG_TYPE_NONE →
      boot_fw_image_validate env flash true hdr = ⟨eBOOT_OK, false⟩) ∧
    (∀ (fl : boot_flashing_t) (dOk : Bool),
      (boot_com_exit_msg_rcv_cb .exit fl false dOk).jumped = false ∧
      (boot_com_exit_msg_rcv_cb .exit fl false dOk).erased = true ∧
      (boot_com_exit_msg_rcv_cb .exit fl false dOk).next = .idle) := by
  refine ⟨?_, ?_, ?_, ?_, ?_, ?_⟩
  · intro env flash readOk hdr hbad
    simp only [boot_fw_image_validate, if_neg hbad]
    exact ⟨hbad, trivial⟩
  · intro env flash hdr hcrc hsig
    have hread : boot_app_head_read true hdr = eBOOT_OK := by
      simp [boot_app_head_read, hcrc]
    simp [boot_fw_image_validate, hread, hsig]
  · intro env flash hdr hcrc hsig
    have hread : boot_app_head_read true hdr = eBOOT_OK := by
      simp [boot_app_head_read, hcrc]
    simp only [boot_fw_image_validate, hread, hsig, eVER_SIG_TYPE_NONE,
      eVER_SIG_TYPE_ECSDA, boot_fw_image_check_crc]
    norm_num
    split_ifs <;> simp_all [eBOOT_OK, eBOOT_ERROR]
  · intro env flash hdr
    cases hv : env.validPub env.pubKey <;>
      cases hw : env.verify env.pubKey (env.sha256 (fw_payload_bytes flash hdr.image_size))
        hdr.signature <;>
      simp [boot_fw_image_check_sig, hv, hw, eBOOT_OK, eBOOT_ERROR]
  · exact validate_other_sig
  · intro fl dOk
    simp [boot_com_exit_msg_rcv_cb]

/-- The header CRC ignores the CRC byte itself. -/
lemma app_head_crc_irrel (h : ver_image_header_t) (x : Nat) :
    boot_app_head_calc_crc { h with crc := x } = boot_app_head_calc_crc h := rfl

/-- A header stamped with its own computed CRC passes the check. -/
lemma app_header_check_self (h : ver_image_header_t) :
    boot_app_header_check { h with crc := boot_app_head_calc_crc h } = eBOOT_OK := by
  simp [boot_app_header_check, app_head_crc_irrel]

/-- Witness for C4 at concrete headers and oracles. -/
theorem post_validation_behaviour_witness :
    (boot_fw_image_validate ⟨fun _ => [], fun _ => false, fun _ _ _ => false, []⟩
      (fun _ => 0) false {}).erased = false ∧
    boot_fw_image_validate ⟨fun _ => [], fun _ => true, fun _ _ _ => true, []⟩ (fun _ => 0)
      true { ({ sig_type := 1 } : ver_image_header_t) with
        crc := boot_app_head_calc_crc { sig_type := 1 } } = ⟨eBOOT_OK, false⟩ ∧
    boot_fw_image_validate ⟨fun _ => [], fun _ => true, fun _ _ _ => true, []⟩ (fun _ => 0)
      true { ({ image_size := 1, image_crc := 3068044720 } : ver_image_header_t) with
        crc := boot_app_head_calc_crc { image_size := 1, image_crc := 3068044720 } } =
      ⟨eBOOT_OK, false⟩ ∧
    boot_fw_image_check_sig ⟨fun _ => [], fun _ => true, fun _ _ _ => true, []⟩
      (fun _ => 0) {} = eBOOT_OK ∧
    (boot_com_exit_msg_rcv_cb .exit ⟨0, 0, 0⟩ false true).jumped = false := by
  obtain ⟨h1, h2, h3, h4, h6, h5⟩ := post_validation_behaviour
  refine ⟨(h1 ⟨fun _ => [], fun _ => false, fun _ _ _ => false, []⟩ (fun _ => 0) false {}
    (by decide)).2, ?_, ?_, ?_, (h5 ⟨0, 0, 0⟩ true).1⟩
  · rw [h2 ⟨fun _ => [], fun _ => true, fun _ _ _ => true, []⟩ (fun _ => 0)
      { ({ sig_type := 1 } : ver_image_header_t) with
        crc := boot_app_head_calc_crc { sig_type := 1 } }
      (app_header_check_self { sig_type := 1 }) rfl]
    rfl
  · rw [h3 ⟨fun _ => [], fun _ => true, fun _ _ _ => true, []⟩ (fun _ => 0)
      { ({ image_size := 1, image_crc := 3068044720 } : ver_image_header_t) with
        crc := boot_app_head_calc_crc { image_size := 1, image_crc := 3068044720 } }
      (app_header_check_self { image_size := 1, image_crc := 3068044720 }) rfl]
    rfl
  · exact (h4 ⟨fun _ => [], fun _ => true, fun _ _ _ => true, []⟩ (fun _ => 0) {}).mpr
      ⟨rfl, rfl⟩

/-- **C4 counterexample.** A resident header with a valid CRC but an
unknown `signature_type = 2` is *accepted* by post-validation (status OK,
header not erased, no payload check performed), contradicting the claim
that any other signature type is rejected; the disabled debug assertion
is the only reaction. -/
theorem unknown_sig_type_accepted :
    boot_app_header_check { ({ sig_type := 2 } : ver_image_header_t) with
      crc := boot_app_head_calc_crc { sig_type := 2 } } = eBOOT_OK ∧
    ({ ({ sig_type := 2 } : ver_image_header_t) with
      crc := boot_app_head_calc_crc { sig_type := 2 } }).sig_type ≠ eVER_SIG_TYPE_NONE ∧
    ({ ({ sig_type := 2 } : ver_image_header_t) with
      crc := boot_app_head_calc_crc { sig_type := 2 } }).sig_type ≠ eVER_SIG_TYPE_ECSDA ∧
    boot_fw_image_validate ⟨fun _ => [], fun _ => false, fun _ _ _ => false, []⟩
      (fun _ => 0) true { ({ sig_type := 2 } : ver_image_header_t) with
        crc := boot_app_head_calc_crc { sig_type := 2 } } = ⟨eBOOT_OK, false⟩ := by
  have hchk := app_header_check_self ({ sig_type := 2 } : ver_image_header_t)
  exact ⟨hchk, by decide, by decide,
    validate_other_sig _ _ _ hchk (by decide) (by decide)⟩

/-- Layout sanity mirroring `BOOT_CFG_STATIC_ASSERT(sizeof(ver_image_header_t) == 256)`. -/
lemma ver_image_header_serialize_length (h : ver_image_header_t) :
    (ver_image_header_serialize h).length = 256 := by
  simp [ver_image_header_serialize, pad_to, bytes_u32]
  omega

/-- Layout sanity mirroring `BOOT_CFG_STATIC_ASSERT(sizeof(boot_shared_mem_t) == 32)`. -/
lemma boot_shared_mem_serialize_length (m : boot_shared_mem_t) :
    (boot_shared_mem_serialize m).length = 32 := by
  simp [boot_shared_mem_serialize, pad_to, bytes_u32]
  omega

/-- The handoff-region CRC ignores the CRC byte itself. -/
lemma shared_mem_crc_irrel (m : boot_shared_mem_t) (x : Nat) :
    boot_shared_mem_calc_crc { m with crc := x } = boot_shared_mem_calc_crc m := rfl

/-- A region stamped with its recomputed CRC is CRC-valid. -/
lemma shared_mem_stamp_valid (m : boot_shared_mem_t) :
    boot_shared_mem_calc_crc (boot_shared_mem_stamp m) =
      (boot_shared_mem_stamp m).crc := by
  unfold boot_shared_mem_stamp
  exact shared_mem_crc_irrel m _

lemma shared_mem_stamp_cnt (m : boot_shared_mem_t) :
    (boot_shared_mem_stamp m).boot_cnt = m.boot_cnt := rfl

/-- **C9.** Run at reset on any handoff-region content: if the stored CRC
matches the recomputed one, `boot_cnt` is incremented by exactly 1 unless
it is already 255 (saturating); on a CRC mismatch `boot_cnt` is reset to
0 and `boot_reason` to NONE; in both cases the layout version and the
current loader version are written and the CRC recomputed, so the region
is CRC-valid afterwards, and on a valid region `boot_cnt` grows by at
most 1. -/
theorem shared_mem_init_behaviour (now : Nat) (m : boot_shared_mem_t) :
    (boot_shared_mem_calc_crc m = m.crc →
      (boot_init_shared_mem now m).boot_cnt =
        (if m.boot_cnt < 255 then m.boot_cnt + 1 else m.boot_cnt)) ∧
    (boot_shared_mem_calc_crc m ≠ m.crc →
      (boot_init_shared_mem now m).boot_cnt = 0 ∧
      (boot_init_shared_mem now m).boot_reason = eBOOT_REASON_NONE) ∧
    (boot_init_shared_mem now m).ver = BOOT_SHARED_MEM_VER ∧
    (boot_init_shared_mem now m).boot_ver = now ∧
    boot_shared_mem_calc_crc (boot_init_shared_mem now m) =
      (boot_init_shared_mem now m).crc ∧
    (boot_shared_mem_calc_crc m = m.crc →
      (boot_init_shared_mem now m).boot_cnt ≤ m.boot_cnt + 1) := by
  refine ⟨?_, ?_, ?_, ?_, ?_, ?_⟩
  · intro hv
    simp only [boot_init_shared_mem, if_pos hv, boot_shared_mem_stamp]
    split_ifs <;> simp_all
  · intro hv
    simp [boot_init_shared_mem, boot_shared_mem_stamp, hv]
  · simp [boot_init_shared_mem, boot_shared_mem_stamp]
  · simp [boot_init_shared_mem, boot_shared_mem_stamp]
  · simp only [boot_init_shared_mem]
    exact shared_mem_stamp_valid _
  · intro hv
    simp only [boot_init_shared_mem, if_pos hv, boot_shared_mem_stamp]
    split_ifs <;> simp_all

/-- Witness for C9 on a valid region with `boot_cnt = 254` and on a
corrupted region. -/
theorem shared_mem_init_behaviour_witness :
    (boot_init_shared_mem 7
      (boot_shared_mem_stamp { boot_cnt := 254, boot_reason := 1 })).boot_cnt = 255 ∧
    boot_shared_mem_calc_crc (boot_init_shared_mem 7
        (boot_shared_mem_stamp { boot_cnt := 254, boot_reason := 1 })) =
      (boot_init_shared_mem 7
        (boot_shared_mem_stamp { boot_cnt := 254, boot_reason := 1 })).crc ∧
    (boot_init_shared_mem 7 ({ boot_cnt := 254, boot_reason := 1, crc := 5 } :
        boot_shared_mem_t)).boot_cnt = 0 := by
  have hval := shared_mem_stamp_valid ({ boot_cnt := 254, boot_reason := 1 } :
    boot_shared_mem_t)
  obtain ⟨h1, -, -, -, h5, -⟩ := shared_mem_init_behaviour 7
    (boot_shared_mem_stamp { boot_cnt := 254, boot_reason := 1 })
  refine ⟨?_, h5, ?_⟩
  · rw [h1 hval]
    decide
  · obtain ⟨-, g2, -, -, -, -⟩ := shared_mem_init_behaviour 7
      ({ boot_cnt := 254, boot_reason := 1, crc := 5 } : boot_shared_mem_t)
    exact (g2 (by decide)).1

/-- **C10.** Every shared-memory getter returns the CRC error status and
leaves the caller's output unwritten when the stored CRC does not match
the recomputed one, returns the general error on a NULL output pointer
without touching the region, and writes the value only when the CRC
matches. -/
theorem shared_mem_getters_crc_guard (m : boot_shared_mem_t) :
    (boot_shared_mem_get_version m true = (eBOOT_ERROR, none) ∧
     boot_shared_mem_get_boot_reason m true = (eBOOT_ERROR, none) ∧
     boot_shared_mem_get_boot_cnt m true = (eBOOT_ERROR, none) ∧
     boot_shared_mem_get_boot_ver m true = (eBOOT_ERROR, none)) ∧
    (m.crc = boot_shared_mem_calc_crc m →
      boot_shared_mem_get_version m false = (eBOOT_OK, some m.ver) ∧
      boot_shared_mem_get_boot_reason m false = (eBOOT_OK, some m.boot_reason) ∧
      boot_shared_mem_get_boot_cnt m false = (eBOOT_OK, some m.boot_cnt) ∧
      boot_shared_mem_get_boot_ver m false = (eBOOT_OK, some m.boot_ver)) ∧
    (m.crc ≠ boot_shared_mem_calc_crc m →
      boot_shared_mem_get_version m false = (eBOOT_ERROR_CRC, none) ∧
      boot_shared_mem_get_boot_reason m false = (eBOOT_ERROR_CRC, none) ∧
      boot_shared_mem_get_boot_cnt m false = (eBOOT_ERROR_CRC, none) ∧
      boot_shared_mem_get_boot_ver m false = (eBOOT_ERROR_CRC, none)) := by
  refine ⟨⟨rfl, rfl, rfl, rfl⟩, ?_, ?_⟩
  · intro hv
    simp [boot_shared_mem_get_version, boot_shared_mem_get_boot_reason,
      boot_shared_mem_get_boot_cnt, boot_shared_mem_get_boot_ver, hv]
  · intro hv
    simp [boot_shared_mem_get_version, boot_shared_mem_get_boot_reason,
      boot_shared_mem_get_boot_cnt, boot_shared_mem_get_boot_ver, hv]

/-- Witness for C10 on a valid and on a corrupted region. -/
theorem shared_mem_getters_crc_guard_witness :
    boot_shared_mem_get_boot_cnt
      (boot_shared_mem_stamp { boot_cnt := 254, boot_reason := 1 }) false =
      (eBOOT_OK, some 254) ∧
    boot_shared_mem_get_boot_cnt ({ boot_cnt := 254, crc := 5 } : boot_shared_mem_t)
      false = (eBOOT_ERROR_CRC, none) ∧
    boot_shared_mem_get_version ({ boot_cnt := 254, crc := 5 } : boot_shared_mem_t)
      true = (eBOOT_ERROR, none) := by
  have hval := (shared_mem_stamp_valid ({ boot_cnt := 254, boot_reason := 1 } :
    boot_shared_mem_t)).symm
  obtain ⟨-, h2, -⟩ := shared_mem_getters_crc_guard
    (boot_shared_mem_stamp { boot_cnt := 254, boot_reason := 1 })
  obtain ⟨g1, -, g3⟩ := shared_mem_getters_crc_guard
    ({ boot_cnt := 254, crc := 5 } : boot_shared_mem_t)
  exact ⟨(h2 hval).2.2.1, (g3 (by decide)).2.2.1, g1.1⟩

end Boot
